import Mathlib

/-!
Verification development for the Crownstone node.js SSE client
(`src/src/CrownstoneSSE.ts`).

The single source file defines a class `CrownstoneSSE` whose instances own a
streaming connection (an `EventSource`), three timers (a heartbeat deadline, a
repeating liveness poll, a reconnect delay), a cached credential record and an
access token, and restart the connection on heartbeat expiry, liveness-poll
detection, transport error, or a server-pushed token-expiry event.

The embedding below mirrors that class.  Pure parts (URL construction,
constructor defaulting, `retryLogin` dispatch) are plain functions.  The
stateful connection machinery is a small-step operational model: a `World`
holds the session object, the collection of pending timer tasks, the stage of
an in-flight token-refresh promise chain, and an explicit `trace` of the
observable primitive actions (listener detach, transport close, transport
open, callback delivery, ...).  Node's event loop is single threaded and every
synchronous segment of the source runs to completion, so each handler of the
source becomes one atomic step on `World`; suspension points of the source
(the login network call, timer delays) become separate external events.
-/

namespace CrownstoneSSE

/-- One branch of the cached credential record: `{email, hashedPassword}`. -/
structure UserCred where
  email : String
  hashedPassword : String
  deriving Repr, DecidableEq

/-- The other branch of the cached credential record: `{hubId, hubToken}`. -/
structure HubCred where
  hubId : String
  hubToken : String
  deriving Repr, DecidableEq

/-- The credential record stored in `this.cachedLoginData`.  In the source it
is a plain object literal carrying either a `user` or a `hub` key; both keys
are modelled as optional so that the dispatch order of `retryLogin` (hub
first) is observable. -/
structure CachedLoginData where
  user : Option UserCred
  hub : Option HubCred
  deriving Repr, DecidableEq

/-- A parsed inbound frame (the result of `JSON.parse(event.data)`), and also
the shape of the synthesized terminal events.  All fields are optional since
JSON payloads are open; a missing field behaves like JavaScript `undefined`
(it compares unequal to every string/number). -/
structure ParsedMessage where
  type : Option String
  subType : Option String
  code : Option Int
  message : Option String
  deriving Repr, DecidableEq

/-- The connection handle (`this.eventSource`).  `id` identifies the
underlying transport object (fresh per construction); `readyState` is the
transport's readiness field, with `2` the CLOSED sentinel checked by the
liveness poll. -/
structure EventSourceHandle where
  id : Nat
  readyState : Nat
  deriving Repr, DecidableEq

/-- The `sseOptions` argument of the constructor.  Absent fields of the
JavaScript object are `none`. -/
structure SseOptions where
  sseUrl : Option String
  loginUrl : Option String
  hubLoginBase : Option String
  projectName : Option String
  autoreconnect : Option Bool
  requireAuthentication : Option Bool
  deriving Repr, DecidableEq

/-- The mutable fields of a `CrownstoneSSE` instance.  Callbacks are opaque to
the model: the caller's event callback is identified by a `Nat`, `none`
standing for JavaScript `undefined`.  The three timer fields hold the last
timer id stored there (`none` before any assignment); as in JavaScript, a
field may keep a stale id after its timer fired or was cleared. -/
structure Session where
  requireAuthentication : Bool
  autoreconnect : Bool
  eventSource : Option EventSourceHandle
  accessToken : Option String
  eventCallback : Option Nat
  checkerInterval : Option Nat
  reconnectTimeout : Option Nat
  pingTimeout : Option Nat
  projectName : Option String
  sse_url : String
  login_url : String
  hubLogin_baseUrl : String
  cachedLoginData : Option CachedLoginData
  deriving Repr, DecidableEq

/-- `DEFAULT_URLS.sseUrl` from the source. -/
def DEFAULT_URLS_sseUrl : String := "https://events.ownstone.org/sse"

/-- `DEFAULT_URLS.loginUrl` from the source. -/
def DEFAULT_URLS_loginUrl : String := "https://cloud.ownstone.org/api/users/login"

/-- `DEFAULT_URLS.hubLoginBase` from the source. -/
def DEFAULT_URLS_hubLoginBase : String := "https://cloud.ownstone.org/api/Hubs/"

/-- Modelled from the spec: the client identifier
`{library-name}-{version}-{caller-supplied-project-name}`.  The source reads
the version from `src/config.ts` (`config.version`), a file that is not part
of the given sources, so the version string is kept as an explicit parameter
of the constructor model. -/
def clientIdentifier (version : String) (projectName : String) : String :=
  "crownstone-lib-nodejs-sse-" ++ version ++ "-" ++ projectName

/-- The class field initializers of `CrownstoneSSE` (the values every field
has before the constructor body runs).  In the source `projectName` is
initialized to `null`. -/
def initSession : Session :=
  { requireAuthentication := true
    autoreconnect := false
    eventSource := none
    accessToken := none
    eventCallback := none
    checkerInterval := none
    reconnectTimeout := none
    pingTimeout := none
    projectName := none
    sse_url := DEFAULT_URLS_sseUrl
    login_url := DEFAULT_URLS_loginUrl
    hubLogin_baseUrl := DEFAULT_URLS_hubLoginBase
    cachedLoginData := none }

/-- The trailing-slash normalization in the constructor:
`if (this.hubLogin_baseUrl.substr(-1,1) !== '/') { this.hubLogin_baseUrl += "/"; }`.
`substr(-1,1)` is the last character of the string (the empty string when the
string is empty), so the test is: append `"/"` unless the last character is
`'/'`. -/
def normalizeHubBase (s : String) : String :=
  if s.data.getLast? = some '/' then s else s ++ "/"

/-- The constructor body.  `options?.x ?? default` keeps an explicitly given
field (even `false`) and falls back to the default when the options object is
absent or the field is `undefined`. -/
def mkSession (version : String) (options : Option SseOptions) : Session :=
  { initSession with
    sse_url := (options.bind (fun o => o.sseUrl)).getD DEFAULT_URLS_sseUrl
    login_url := (options.bind (fun o => o.loginUrl)).getD DEFAULT_URLS_loginUrl
    hubLogin_baseUrl :=
      normalizeHubBase ((options.bind (fun o => o.hubLoginBase)).getD DEFAULT_URLS_hubLoginBase)
    projectName :=
      some (clientIdentifier version
        ((options.bind (fun o => o.projectName)).getD "no_project_name"))
    autoreconnect :=
      match options with
      | some o => match o.autoreconnect with
        | some b => b
        | none => true
      | none => true
    requireAuthentication :=
      match options with
      | some o => match o.requireAuthentication with
        | some b => b
        | none => true
      | none => true }

/-- The login request `retryLogin` decides to replay: either
`hubLogin(hubId, hubToken)` or `loginHashed(email, sha1passwordHash)`. -/
inductive LoginAttempt where
  | hub (hubId : String) (hubToken : String)
  | user (email : String) (sha1passwordHash : String)
  deriving Repr, DecidableEq

/-- How `retryLogin` can fail before issuing any request.
`nullCredentialRecord` is the JavaScript `TypeError` raised by reading
`.hub` on a `null` `cachedLoginData`; `noCredentials` is the explicit
`throw "NO_CREDENTIALS"`. -/
inductive RetryLoginFailure where
  | nullCredentialRecord
  | noCredentials
  deriving Repr, DecidableEq

/-- The dispatch of `retryLogin()`: check `cachedLoginData.hub` first, then
`cachedLoginData.user`, else throw `"NO_CREDENTIALS"`. -/
def retryLoginDispatch : Option CachedLoginData → Except RetryLoginFailure LoginAttempt
  | none => Except.error RetryLoginFailure.nullCredentialRecord
  | some r =>
    match r.hub with
    | some h => Except.ok (LoginAttempt.hub h.hubId h.hubToken)
    | none =>
      match r.user with
      | some u => Except.ok (LoginAttempt.user u.email u.hashedPassword)
      | none => Except.error RetryLoginFailure.noCredentials

/-- The URL built by `hubLogin`:
`this.hubLogin_baseUrl + hubId + '/login?token=' + hubToken`. -/
def hubLoginCombinedUrl (baseUrl : String) (hubId : String) (hubToken : String) : String :=
  baseUrl ++ hubId ++ "/login?token=" ++ hubToken

/-- JavaScript string coercion of a possibly-null value, as performed by the
`+` of `"?accessToken=" + this.accessToken`: `null` prints as `"null"`. -/
def jsStr : Option String → String
  | none => "null"
  | some t => t

/-- The target URL computed inside `start`: the bare `sse_url`, plus
`?accessToken=...&projectName=...` when authentication is required. -/
def buildStartUrl (s : Session) : String :=
  if s.requireAuthentication = true then
    s.sse_url ++ "?accessToken=" ++ jsStr s.accessToken ++ "&projectName=" ++ jsStr s.projectName
  else
    s.sse_url

/-- The three listener slots detached by `closeEventSource`. -/
inductive ListenerKind where
  | openL
  | messageL
  | errorL
  deriving Repr, DecidableEq

/-- The observable primitive actions recorded in the trace, in the order the
source performs them. -/
inductive Act where
  /-- `start` raising `"AccessToken is required. ..."`. -/
  | throwAuthRequired
  /-- `eventSource.removeEventListener(...)` on transport `id`. -/
  | removeListener (id : Nat) (k : ListenerKind)
  /-- `eventSource.close()` on transport `id`. -/
  | closeES (id : Nat)
  /-- `this.eventSource = null`. -/
  | nullHandle
  /-- `this.eventSource = new EventSource(url)` creating transport `id`. -/
  | openNew (id : Nat) (url : String)
  /-- `this.eventCallback(message)`: delivery of an event to the caller. -/
  | deliver (m : ParsedMessage)
  /-- Entry into `retryWithNewAccessToken()`. -/
  | retryRefreshInvoked
  /-- The heartbeat-deadline timer firing and invoking `start(cb)`. -/
  | heartbeatFired (cb : Nat)
  deriving Repr, DecidableEq

/-- The kinds of pending timer tasks.  `heartbeat` is the single-shot 40 s
ping deadline (`pingTimeout`), `checker` the repeating 1 s liveness poll
(`checkerInterval`), `reconnect` the 2 s error-path delay
(`reconnectTimeout`), and `refreshDelay` the anonymous 2 s delay inside the
token-refresh promise chain (whose id is held only by that chain, never by a
session field). -/
inductive TaskKind where
  | heartbeat
  | checker
  | reconnect
  | refreshDelay
  deriving Repr, DecidableEq

/-- A pending timer task: its JavaScript timer id, its due time, its kind. -/
structure Task where
  id : Nat
  fireAt : Nat
  kind : TaskKind
  deriving Repr, DecidableEq

/-- The stage of the promise chain of `retryWithNewAccessToken`:
`awaitingLogin` while the replayed login request is in flight.  (The
subsequent 2 s delay of the chain is a pending `refreshDelay` task.) -/
inductive RefreshStage where
  | awaitingLogin
  deriving Repr, DecidableEq

/-- The whole model state: the session object, the pending timers of the
event loop, the refresh-chain stage, a fresh-id counter shared by transports
and timers, the current time in milliseconds, and the action trace. -/
structure World where
  s : Session
  pending : List Task
  refreshChain : Option RefreshStage
  nextId : Nat
  now : Nat
  trace : List Act
  deriving Repr, DecidableEq

/-- `clearTimeout` / `clearInterval` on a stored handle: removes the pending
task with that id, a no-op when the handle is `null` or the task already
fired. -/
def clearT (h : Option Nat) (p : List Task) : List Task :=
  match h with
  | none => p
  | some i => p.filter (fun t => t.id != i)

/-- `_clearPendingActions()`: clear the liveness poll, the reconnect delay
and the heartbeat deadline (in source order). -/
def clearPendingActions (w : World) : World :=
  { w with pending :=
      clearT w.s.pingTimeout (clearT w.s.reconnectTimeout (clearT w.s.checkerInterval w.pending)) }

/-- `closeEventSource()`: clear all pending timers; if a connection handle
exists, detach the three listeners, close the transport, null the handle. -/
def closeEventSource (w : World) : World :=
  let w1 := clearPendingActions w
  match w1.s.eventSource with
  | none => w1
  | some es =>
    { w1 with
      s := { w1.s with eventSource := none }
      trace := w1.trace ++
        [Act.removeListener es.id ListenerKind.openL,
         Act.removeListener es.id ListenerKind.messageL,
         Act.removeListener es.id ListenerKind.errorL,
         Act.closeES es.id,
         Act.nullHandle] }

/-- `stop()`: disable auto-reconnect, then `closeEventSource()`. -/
def stop (w : World) : World :=
  closeEventSource { w with s := { w.s with autoreconnect := false } }

/-- `setAccessToken(token)`. -/
def setAccessToken (w : World) (token : String) : World :=
  { w with s := { w.s with accessToken := some token } }

/-- `_messageReceived()`: clear the pending heartbeat deadline and arm a new
single-shot 40000 ms one.  (Its body — `if (this.eventCallback !== undefined)
this.start(this.eventCallback)` — runs when the task fires; see `runTask`.) -/
def messageReceived (w : World) : World :=
  let p := clearT w.s.pingTimeout w.pending
  let tid := w.nextId
  { w with
    pending := p ++ [⟨tid, w.now + 40000, TaskKind.heartbeat⟩]
    nextId := tid + 1
    s := { w.s with pingTimeout := some tid } }

/-- `start(eventCallback)`: throw synchronously when authentication is
required and no token is set; otherwise store the callback, clear all pending
timers, close any existing connection, build the URL and open a new
transport.  The whole body up to and including the `Promise` executor runs
synchronously, hence one atomic step. -/
def start (w : World) (cb : Option Nat) : World :=
  if w.s.accessToken = none ∧ w.s.requireAuthentication = true then
    { w with trace := w.trace ++ [Act.throwAuthRequired] }
  else
    let w1 := { w with s := { w.s with eventCallback := cb } }
    let w2 := clearPendingActions w1
    let w3 := if w2.s.eventSource.isSome then closeEventSource w2 else w2
    let url := buildStartUrl w3.s
    let esId := w3.nextId
    { w3 with
      s := { w3.s with eventSource := some ⟨esId, 0⟩ }
      nextId := esId + 1
      trace := w3.trace ++ [Act.openNew esId url] }

/-- The terminal event synthesized when auto-reconnect is disabled or no
credential record exists. -/
def terminalNoRetry : ParsedMessage :=
  { type := some "system"
    subType := some "COULD_NOT_REFRESH_TOKEN"
    code := some 401
    message := some "Token expired, autoconnect is disabled or does not have login credentials. Connection closed." }

/-- The terminal event of the `catch` block of `retryWithNewAccessToken`.
Note (see `retryWithNewAccessToken`): this block is unreachable in the
source, because `retryLogin()` is `async` and its failures are promise
rejections, which a synchronous `try`/`catch` does not intercept. -/
def terminalRefreshFailed : ParsedMessage :=
  { type := some "system"
    subType := some "COULD_NOT_REFRESH_TOKEN"
    code := some 401
    message := some "Token expired, autoreconnect tried to get a new one. This was not successful. Connection closed." }

/-- `retryWithNewAccessToken()`: close the connection; when auto-reconnect is
enabled and a credential record exists, call `retryLogin()` and chain
`then(wait 2 s).then(start(this.eventCallback))`; otherwise synthesize and
deliver the terminal event.

The dispatch of `retryLogin` runs its synchronous prefix here: it re-records
the credential (`loginHashed` / `hubLogin` assign `this.cachedLoginData`
before their `fetch`) and leaves the network call in flight
(`refreshChain := awaitingLogin`).  `retryLogin` is an `async` function, so
every failure inside it — including `throw "NO_CREDENTIALS"` — is a rejection
of the returned promise; the surrounding `try`/`catch` of the source only
catches synchronous exceptions, so such a rejection is unhandled and produces
no further state change (the `catch` block that would deliver
`terminalRefreshFailed` is dead code). -/
def retryWithNewAccessToken (w : World) : World :=
  let w1 := { w with trace := w.trace ++ [Act.retryRefreshInvoked] }
  let w2 := closeEventSource w1
  if w2.s.autoreconnect = true ∧ w2.s.cachedLoginData.isSome then
    match retryLoginDispatch w2.s.cachedLoginData with
    | Except.ok (LoginAttempt.hub hubId hubToken) =>
      { w2 with
        s := { w2.s with cachedLoginData := some ⟨none, some ⟨hubId, hubToken⟩⟩ }
        refreshChain := some RefreshStage.awaitingLogin }
    | Except.ok (LoginAttempt.user email hash) =>
      { w2 with
        s := { w2.s with cachedLoginData := some ⟨some ⟨email, hash⟩, none⟩ }
        refreshChain := some RefreshStage.awaitingLogin }
    | Except.error _ => w2
  else
    { w2 with trace := w2.trace ++ [Act.deliver terminalNoRetry] }

/-- Completion of the login request replayed by the refresh chain.  On
success the login's `then` installs the token (`this.accessToken =
result.id`) and the chain schedules its anonymous 2000 ms delay (a timer id
held only by the chain).  On failure the rejection propagates out of the
chain unhandled: nothing further happens (see `retryWithNewAccessToken`). -/
def resolveRefreshLogin (w : World) (ok : Bool) (token : String) : World :=
  match w.refreshChain with
  | some RefreshStage.awaitingLogin =>
    if ok then
      let tid := w.nextId
      { w with
        s := { w.s with accessToken := some token }
        refreshChain := none
        pending := w.pending ++ [⟨tid, w.now + 2000, TaskKind.refreshDelay⟩]
        nextId := tid + 1 }
    else
      { w with refreshChain := none }
  | none => w

/-- `listeners.open`: on the current transport's first `open`, mark it open,
run `_messageReceived()` and start the 1000 ms liveness poll
(`this.checkerInterval = set_Interval(...)`). -/
def onOpen (w : World) (esId : Nat) : World :=
  match w.s.eventSource with
  | some es =>
    if es.id = esId ∧ es.readyState = 0 then
      let w1 := { w with s := { w.s with eventSource := some ⟨es.id, 1⟩ } }
      let w2 := messageReceived w1
      let tid := w2.nextId
      { w2 with
        pending := w2.pending ++ [⟨tid, w2.now + 1000, TaskKind.checker⟩]
        nextId := tid + 1
        s := { w2.s with checkerInterval := some tid } }
    else w
  | none => w

/-- `listeners.message`: bump the heartbeat; when the payload is non-empty,
parse it, deliver it to the callback, then run the two token-expiry checks
(each invoking `retryWithNewAccessToken()` on a match). -/
def onMessage (w : World) (esId : Nat) (data : Option ParsedMessage) : World :=
  match w.s.eventSource with
  | some es =>
    if es.id = esId then
      let w1 := messageReceived w
      match data with
      | none => w1
      | some m =>
        let w2 := { w1 with trace := w1.trace ++ [Act.deliver m] }
        let w3 :=
          if m.type = some "system" ∧ m.code = some 401 ∧ m.subType = some "TOKEN_EXPIRED" then
            retryWithNewAccessToken w2
          else w2
        if m.type = some "system" ∧ m.code = some 401 ∧ m.subType = some "INVALID_ACCESS_TOKEN" then
          retryWithNewAccessToken w3
        else w3
    else w
  | none => w

/-- `listeners.error`: clear the liveness poll and the reconnect delay, close
the connection, and schedule a reconnect (`start(this.eventCallback)`) in
2000 ms. -/
def onError (w : World) (esId : Nat) : World :=
  match w.s.eventSource with
  | some es =>
    if es.id = esId then
      let w1 := { w with pending := clearT w.s.reconnectTimeout (clearT w.s.checkerInterval w.pending) }
      let w2 := closeEventSource w1
      let tid := w2.nextId
      { w2 with
        pending := w2.pending ++ [⟨tid, w2.now + 2000, TaskKind.reconnect⟩]
        nextId := tid + 1
        s := { w2.s with reconnectTimeout := some tid } }
    else w
  | none => w

/-- The transport silently reaching its CLOSED state (readyState 2) without
firing an error event — the discrepancy the liveness poll looks for. -/
def onRemoteClose (w : World) (esId : Nat) : World :=
  match w.s.eventSource with
  | some es =>
    if es.id = esId then
      { w with s := { w.s with eventSource := some ⟨es.id, 2⟩ } }
    else w
  | none => w

/-- The body a timer task runs when it fires.
Heartbeat: `if (this.eventCallback !== undefined) this.start(this.eventCallback)`.
Checker: `if (this.eventSource.readyState === 2) this.start(this.eventCallback)`
(the poll only exists while a handle does, see the invariants below).
Reconnect and refresh delay: `this.start(this.eventCallback)`. -/
def runTask (w : World) (k : TaskKind) : World :=
  match k with
  | TaskKind.heartbeat =>
    match w.s.eventCallback with
    | some cb => start { w with trace := w.trace ++ [Act.heartbeatFired cb] } (some cb)
    | none => w
  | TaskKind.checker =>
    match w.s.eventSource with
    | some es => if es.readyState = 2 then start w w.s.eventCallback else w
    | none => w
  | TaskKind.reconnect => start w w.s.eventCallback
  | TaskKind.refreshDelay => start w w.s.eventCallback

/-- A pending timer with id `tid` firing: remove it (an interval first
re-arms itself at `+1000` with the same id, as JavaScript intervals keep
their id), set the clock to its due time, and run its body. -/
def fireTimer (w : World) (tid : Nat) : World :=
  match w.pending.find? (fun t => t.id == tid) with
  | none => w
  | some t =>
    let w1 := { w with now := t.fireAt, pending := w.pending.filter (fun u => u.id != tid) }
    let w2 :=
      if t.kind = TaskKind.checker then
        { w1 with pending := w1.pending ++ [⟨t.id, t.fireAt + 1000, TaskKind.checker⟩] }
      else w1
    runTask w2 t.kind

/-- The events the model steps on: the public API calls of the class, the
transport's listener events (delivered only to the currently attached
transport), completions of in-flight network logins, timer firings, and clock
advances. -/
inductive Ev where
  | extStart (cb : Nat)
  | extStop
  | extCloseEventSource
  | extSetAccessToken (token : String)
  | extRetryWithNewAccessToken
  | extLoginHashed (email : String) (hash : String)
  | extHubLogin (hubId : String) (hubToken : String)
  | loginSucceeded (token : String)
  | esOpen (esId : Nat)
  | esMessage (esId : Nat) (data : Option ParsedMessage)
  | esError (esId : Nat)
  | esRemoteClose (esId : Nat)
  | resolveRefreshLogin (ok : Bool) (token : String)
  | timer (tid : Nat)
  | advance (t : Nat)
  deriving Repr, DecidableEq

/-- One atomic step.  `extLoginHashed` / `extHubLogin` are the synchronous
prefixes of the two login methods (both record the credential before their
network call); `loginSucceeded` is the `then` of either login installing
`this.accessToken = result.id`. -/
def step (w : World) : Ev → World
  | Ev.extStart cb => start w (some cb)
  | Ev.extStop => stop w
  | Ev.extCloseEventSource => closeEventSource w
  | Ev.extSetAccessToken t => setAccessToken w t
  | Ev.extRetryWithNewAccessToken => retryWithNewAccessToken w
  | Ev.extLoginHashed e h =>
    { w with s := { w.s with cachedLoginData := some ⟨some ⟨e, h⟩, none⟩ } }
  | Ev.extHubLogin i t =>
    { w with s := { w.s with cachedLoginData := some ⟨none, some ⟨i, t⟩⟩ } }
  | Ev.loginSucceeded t => { w with s := { w.s with accessToken := some t } }
  | Ev.esOpen i => onOpen w i
  | Ev.esMessage i d => onMessage w i d
  | Ev.esError i => onError w i
  | Ev.esRemoteClose i => onRemoteClose w i
  | Ev.resolveRefreshLogin ok t => resolveRefreshLogin w ok t
  | Ev.timer tid => fireTimer w tid
  | Ev.advance t => { w with now := t }

/-- Run a sequence of events. -/
def run (w : World) (evs : List Ev) : World := evs.foldl step w

/-- A freshly constructed session wrapped in an initial world. -/
def mkWorld (s : Session) : World :=
  { s := s, pending := [], refreshChain := none, nextId := 0, now := 0, trace := [] }

/-- Deterministic firing order for a silent period (no external events): the
pending task with the least due time, ties broken by id. -/
def earlier (a b : Task) : Bool :=
  a.fireAt < b.fireAt || (a.fireAt == b.fireAt && a.id < b.id)

/-- The next task to fire during silence. -/
def nextTask (p : List Task) : Option Task :=
  p.foldl
    (fun acc t =>
      match acc with
      | none => some t
      | some u => if earlier t u then some t else some u)
    none

/-- Run the event loop through a silent period: repeatedly fire the earliest
pending timer, with fuel. -/
def runSilent : Nat → World → World
  | 0, w => w
  | Nat.succ n, w =>
    match nextTask w.pending with
    | none => w
    | some t => runSilent n (fireTimer w t.id)

/-! ### Trace and pending-task observations -/

/-- Connection-lifetime check of a trace.  `liveSteps n tr` walks `tr` with
`n` transports currently live; a `openNew` is only legal with `0` live and a
`closeES` only with `1` live, every other action is neutral.  A result of
`some k` therefore certifies that at every point of the trace at most one
transport was live (and `k` are live at the end); `none` flags a violation. -/
def liveSteps : Nat → List Act → Option Nat
  | n, [] => some n
  | n, Act.openNew _ _ :: r => if n = 0 then liveSteps 1 r else none
  | n, Act.closeES _ :: r => if n = 1 then liveSteps 0 r else none
  | n, _ :: r => liveSteps n r

/-- `1` when a connection handle is present, else `0`. -/
def esInd (w : World) : Nat :=
  match w.s.eventSource with
  | some _ => 1
  | none => 0

/-- The pending tasks of a given kind. -/
def tasksOfKind (k : TaskKind) (p : List Task) : List Task :=
  p.filter (fun t => t.kind == k)

/-- Number of pending heartbeat-deadline timers. -/
def hbCount (p : List Task) : Nat := (tasksOfKind TaskKind.heartbeat p).length

/-- Number of pending liveness-poll timers. -/
def checkerCount (p : List Task) : Nat := (tasksOfKind TaskKind.checker p).length

/-- Every pending task of kind `k` is the one the given session field points
at. -/
def linkedKind (k : TaskKind) (field : Option Nat) (p : List Task) : Prop :=
  ∀ t ∈ p, t.kind = k → field = some t.id

instance (k : TaskKind) (field : Option Nat) (p : List Task) :
    Decidable (linkedKind k field p) := by
  unfold linkedKind
  infer_instance

/-- Count of `openNew` actions in a trace. -/
def countOpenNew (tr : List Act) : Nat :=
  (tr.filter (fun a =>
    match a with
    | Act.openNew _ _ => true
    | _ => false)).length

/-- The URLs passed to `new EventSource(url)`, in trace order. -/
def openUrls (tr : List Act) : List String :=
  tr.filterMap (fun a =>
    match a with
    | Act.openNew _ u => some u
    | _ => none)

/-- Count of heartbeat firings in a trace. -/
def countHeartbeatFired (tr : List Act) : Nat :=
  (tr.filter (fun a =>
    match a with
    | Act.heartbeatFired _ => true
    | _ => false)).length

/-- Count of deliveries of terminal `COULD_NOT_REFRESH_TOKEN` events. -/
def countTerminalDeliver (tr : List Act) : Nat :=
  (tr.filter (fun a =>
    match a with
    | Act.deliver m => m.subType == some "COULD_NOT_REFRESH_TOKEN"
    | _ => false)).length

/-- Count of deliveries of a given event. -/
def countDeliver (m : ParsedMessage) (tr : List Act) : Nat :=
  (tr.filter (fun a =>
    match a with
    | Act.deliver m2 => m2 == m
    | _ => false)).length

/-- Events that are not an external `start` call by the caller. -/
def noStartCall : Ev → Bool
  | Ev.extStart _ => false
  | _ => true

/-- The shape of an inbound event that makes the message listener invoke the
token-refresh path. -/
def triggersTokenRefresh (m : ParsedMessage) : Bool :=
  (m.type == some "system" && m.code == some 401 && m.subType == some "TOKEN_EXPIRED") ||
  (m.type == some "system" && m.code == some 401 && m.subType == some "INVALID_ACCESS_TOKEN")

/-! ### The global invariant -/

/-- The inductive invariant of the model, preserved by every step:
the trace never has two live transports and ends with exactly the live
transport the handle field holds; every pending heartbeat / poll / reconnect
task is the one its session field points at; at most one heartbeat deadline
is pending; no poll is pending unless the current transport has reported
open. -/
def InvAll (w : World) : Prop :=
  liveSteps 0 w.trace = some (esInd w)
  ∧ linkedKind TaskKind.heartbeat w.s.pingTimeout w.pending
  ∧ hbCount w.pending ≤ 1
  ∧ linkedKind TaskKind.checker w.s.checkerInterval w.pending
  ∧ linkedKind TaskKind.reconnect w.s.reconnectTimeout w.pending
  ∧ ((w.s.eventSource = none ∨ ∃ es, w.s.eventSource = some es ∧ es.readyState = 0) →
      checkerCount w.pending = 0)

instance (w : World) : Decidable (InvAll w) := by
  unfold InvAll linkedKind
  infer_instance

/-! ### Normal forms of `start` -/

lemma start_throw (w : World) (cb : Option Nat)
    (h : w.s.accessToken = none ∧ w.s.requireAuthentication = true) :
    start w cb = { w with trace := w.trace ++ [Act.throwAuthRequired] } := by
  simp [start, h]

lemma start_opens_none (w : World) (cb : Option Nat)
    (h : ¬(w.s.accessToken = none ∧ w.s.requireAuthentication = true))
    (hes : w.s.eventSource = none) :
    start w cb = { w with
      s := { w.s with eventCallback := cb, eventSource := some ⟨w.nextId, 0⟩ }
      pending := clearT w.s.pingTimeout
        (clearT w.s.reconnectTimeout (clearT w.s.checkerInterval w.pending))
      nextId := w.nextId + 1
      trace := w.trace ++ [Act.openNew w.nextId (buildStartUrl w.s)] } := by
  simp [start, h, clearPendingActions, hes, buildStartUrl]

lemma start_opens_some (w : World) (cb : Option Nat) (es : EventSourceHandle)
    (h : ¬(w.s.accessToken = none ∧ w.s.requireAuthentication = true))
    (hes : w.s.eventSource = some es) :
    start w cb = { w with
      s := { w.s with eventCallback := cb, eventSource := some ⟨w.nextId, 0⟩ }
      pending := clearT w.s.pingTimeout
        (clearT w.s.reconnectTimeout (clearT w.s.checkerInterval
          (clearT w.s.pingTimeout
            (clearT w.s.reconnectTimeout (clearT w.s.checkerInterval w.pending)))))
      nextId := w.nextId + 1
      trace := w.trace ++
        [Act.removeListener es.id ListenerKind.openL,
         Act.removeListener es.id ListenerKind.messageL,
         Act.removeListener es.id ListenerKind.errorL,
         Act.closeES es.id,
         Act.nullHandle,
         Act.openNew w.nextId (buildStartUrl w.s)] } := by
  simp [start, h, closeEventSource, clearPendingActions, hes, buildStartUrl]

lemma closeEventSource_none (w : World) (hes : w.s.eventSource = none) :
    closeEventSource w = { w with
      pending := clearT w.s.pingTimeout
        (clearT w.s.reconnectTimeout (clearT w.s.checkerInterval w.pending)) } := by
  simp [closeEventSource, clearPendingActions, hes]

lemma closeEventSource_some (w : World) (es : EventSourceHandle)
    (hes : w.s.eventSource = some es) :
    closeEventSource w = { w with
      s := { w.s with eventSource := none }
      pending := clearT w.s.pingTimeout
        (clearT w.s.reconnectTimeout (clearT w.s.checkerInterval w.pending))
      trace := w.trace ++
        [Act.removeListener es.id ListenerKind.openL,
         Act.removeListener es.id ListenerKind.messageL,
         Act.removeListener es.id ListenerKind.errorL,
         Act.closeES es.id,
         Act.nullHandle] } := by
  simp [closeEventSource, clearPendingActions, hes]

/-- `retryWithNewAccessToken` records its entry right after the one of the
original trace: whatever branch runs, the trace extends
`w.trace ++ [retryRefreshInvoked]`. -/
lemma retry_trace_prefix (w : World) :
    ∃ tl, (retryWithNewAccessToken w).trace = w.trace ++ [Act.retryRefreshInvoked] ++ tl := by
  unfold retryWithNewAccessToken
  simp only [closeEventSource, clearPendingActions]
  cases hes : w.s.eventSource with
  | none =>
    simp only [hes]
    split
    · split
      · exact ⟨[], by simp⟩
      · exact ⟨[], by simp⟩
      · exact ⟨[], by simp⟩
    · exact ⟨[Act.deliver terminalNoRetry], by simp⟩
  | some es =>
    simp only [hes]
    split
    · split
      · exact ⟨[Act.removeListener es.id ListenerKind.openL,
          Act.removeListener es.id ListenerKind.messageL,
          Act.removeListener es.id ListenerKind.errorL,
          Act.closeES es.id, Act.nullHandle], by simp⟩
      · exact ⟨[Act.removeListener es.id ListenerKind.openL,
          Act.removeListener es.id ListenerKind.messageL,
          Act.removeListener es.id ListenerKind.errorL,
          Act.closeES es.id, Act.nullHandle], by simp⟩
      · exact ⟨[Act.removeListener es.id ListenerKind.openL,
          Act.removeListener es.id ListenerKind.messageL,
          Act.removeListener es.id ListenerKind.errorL,
          Act.closeES es.id, Act.nullHandle], by simp⟩
    · exact ⟨[Act.removeListener es.id ListenerKind.openL,
        Act.removeListener es.id ListenerKind.messageL,
        Act.removeListener es.id ListenerKind.errorL,
        Act.closeES es.id, Act.nullHandle, Act.deliver terminalNoRetry], by simp⟩

/-! ### Invariant preservation -/

lemma mem_clearT {t : Task} {f : Option Nat} {p : List Task} (h : t ∈ clearT f p) : t ∈ p := by
  cases f with
  | none => exact h
  | some i => exact List.mem_of_mem_filter h

lemma clearT_some_id {t : Task} {i : Nat} {p : List Task} (h : t ∈ clearT (some i) p) :
    t.id ≠ i := by
  have h2 := (List.mem_filter.mp h).2
  simpa using h2

lemma linkedKind_clearT {k : TaskKind} {field : Option Nat} {f : Option Nat} {p : List Task}
    (h : linkedKind k field p) : linkedKind k field (clearT f p) :=
  fun t ht hk => h t (mem_clearT ht) hk

lemma tasksOfKind_sublist_of_sublist {k : TaskKind} {p q : List Task} (h : p.Sublist q) :
    (tasksOfKind k p).Sublist (tasksOfKind k q) :=
  List.Sublist.filter _ h

lemma clearT_sublist (f : Option Nat) (p : List Task) : (clearT f p).Sublist p := by
  cases f with
  | none => exact List.Sublist.refl p
  | some i => exact List.filter_sublist p

lemma tasksOfKind_clearT_sublist (k : TaskKind) (f : Option Nat) (p : List Task) :
    (tasksOfKind k (clearT f p)).Sublist (tasksOfKind k p) :=
  tasksOfKind_sublist_of_sublist (clearT_sublist f p)

lemma mem_tasksOfKind {k : TaskKind} {t : Task} {p : List Task} :
    t ∈ tasksOfKind k p ↔ t ∈ p ∧ t.kind = k := by
  unfold tasksOfKind
  rw [List.mem_filter]
  simp

/-- Clearing the session field a kind is linked to removes every pending
task of that kind. -/
lemma linked_clear_all {k : TaskKind} {f : Option Nat} {p : List Task}
    (h : linkedKind k f p) : tasksOfKind k (clearT f p) = [] := by
  rw [List.eq_nil_iff_forall_not_mem]
  intro t ht
  rcases mem_tasksOfKind.mp ht with ⟨htc, hk⟩
  have hf := h t (mem_clearT htc) hk
  cases f with
  | none => exact Option.noConfusion hf
  | some i =>
    have hne := clearT_some_id htc
    have : i = t.id := Option.some.inj hf
    exact hne this.symm

lemma tasksOfKind_eq_nil_of_sublist {k : TaskKind} {p q : List Task}
    (h : p.Sublist q) (hq : tasksOfKind k q = []) : tasksOfKind k p = [] :=
  List.sublist_nil.mp (hq ▸ tasksOfKind_sublist_of_sublist (k := k) h)

lemma linkedKind_of_nil {k : TaskKind} {p : List Task} (h : tasksOfKind k p = [])
    (f : Option Nat) : linkedKind k f p := by
  intro t ht hk
  exact absurd (mem_tasksOfKind.mpr ⟨ht, hk⟩) (by simp [h])

lemma tasksOfKind_append (k : TaskKind) (p q : List Task) :
    tasksOfKind k (p ++ q) = tasksOfKind k p ++ tasksOfKind k q :=
  List.filter_append p q

/-- `liveSteps` distributes over append. -/
lemma liveSteps_append (a b : List Act) (n : Nat) :
    liveSteps n (a ++ b) = (liveSteps n a).bind (fun m => liveSteps m b) := by
  induction a generalizing n with
  | nil => simp [liveSteps]
  | cons x xs ih =>
    cases x with
    | openNew i u =>
      by_cases hn : n = 0 <;> simp [liveSteps, hn, ih]
    | closeES i =>
      by_cases hn : n = 1 <;> simp [liveSteps, hn, ih]
    | throwAuthRequired => simp [liveSteps, ih]
    | removeListener i k => simp [liveSteps, ih]
    | nullHandle => simp [liveSteps, ih]
    | deliver m => simp [liveSteps, ih]
    | retryRefreshInvoked => simp [liveSteps, ih]
    | heartbeatFired cb => simp [liveSteps, ih]



lemma count_zero_iff {k : TaskKind} {p : List Task} :
    (tasksOfKind k p).length = 0 ↔ tasksOfKind k p = [] :=
  List.length_eq_zero

lemma cleared_kinds {w : World}
    (i2 : linkedKind TaskKind.heartbeat w.s.pingTimeout w.pending)
    (i4 : linkedKind TaskKind.checker w.s.checkerInterval w.pending)
    (i5 : linkedKind TaskKind.reconnect w.s.reconnectTimeout w.pending) :
    tasksOfKind TaskKind.heartbeat (clearT w.s.pingTimeout
      (clearT w.s.reconnectTimeout (clearT w.s.checkerInterval w.pending))) = []
    ∧ tasksOfKind TaskKind.checker (clearT w.s.pingTimeout
      (clearT w.s.reconnectTimeout (clearT w.s.checkerInterval w.pending))) = []
    ∧ tasksOfKind TaskKind.reconnect (clearT w.s.pingTimeout
      (clearT w.s.reconnectTimeout (clearT w.s.checkerInterval w.pending))) = [] := by
  refine ⟨?_, ?_, ?_⟩
  · exact linked_clear_all (linkedKind_clearT (linkedKind_clearT i2))
  · exact tasksOfKind_eq_nil_of_sublist (clearT_sublist _ _)
      (tasksOfKind_eq_nil_of_sublist (clearT_sublist _ _) (linked_clear_all i4))
  · exact tasksOfKind_eq_nil_of_sublist (clearT_sublist _ _)
      (linked_clear_all (linkedKind_clearT i5))

lemma liveSteps_neutral_deliver (m : ParsedMessage) (n : Nat) :
    liveSteps n [Act.deliver m] = some n := by simp [liveSteps]

lemma invAll_trace_neutral {w : World} (h : InvAll w) (l : List Act)
    (hl : ∀ n, liveSteps n l = some n) : InvAll { w with trace := w.trace ++ l } := by
  obtain ⟨i1, i2, i3, i4, i5, i6⟩ := h
  refine ⟨?_, i2, i3, i4, i5, i6⟩
  show liveSteps 0 (w.trace ++ l) = some (esInd { w with trace := w.trace ++ l })
  rw [liveSteps_append, i1]
  simp [hl]
  rfl

lemma invAll_closeEventSource {w : World} (h : InvAll w) : InvAll (closeEventSource w) := by
  obtain ⟨i1, i2, i3, i4, i5, i6⟩ := h
  obtain ⟨hb0, chk0, rec0⟩ := cleared_kinds i2 i4 i5
  cases hes : w.s.eventSource with
  | none =>
    rw [closeEventSource_none w hes]
    refine ⟨i1, linkedKind_of_nil hb0 _, ?_, linkedKind_of_nil chk0 _,
      linkedKind_of_nil rec0 _, ?_⟩
    · show hbCount _ ≤ 1
      simp [hbCount, hb0]
    · intro _
      show checkerCount _ = 0
      simp [checkerCount, chk0]
  | some es =>
    rw [closeEventSource_some w es hes]
    refine ⟨?_, linkedKind_of_nil hb0 _, ?_, linkedKind_of_nil chk0 _,
      linkedKind_of_nil rec0 _, ?_⟩
    · show liveSteps 0 (w.trace ++ _) = some _
      rw [liveSteps_append, i1]
      simp [esInd, hes, liveSteps]
    · show hbCount _ ≤ 1
      simp [hbCount, hb0]
    · intro _
      show checkerCount _ = 0
      simp [checkerCount, chk0]



lemma messageReceived_eq (w : World) :
    messageReceived w = { w with
      pending := clearT w.s.pingTimeout w.pending
        ++ [⟨w.nextId, w.now + 40000, TaskKind.heartbeat⟩]
      nextId := w.nextId + 1
      s := { w.s with pingTimeout := some w.nextId } } := rfl

lemma invAll_messageReceived {w : World} (h : InvAll w) : InvAll (messageReceived w) := by
  obtain ⟨i1, i2, i3, i4, i5, i6⟩ := h
  have hb0 : tasksOfKind TaskKind.heartbeat (clearT w.s.pingTimeout w.pending) = [] :=
    linked_clear_all i2
  rw [messageReceived_eq]
  refine ⟨i1, ?_, ?_, ?_, ?_, ?_⟩
  · intro t ht hk
    show some w.nextId = some t.id
    rcases List.mem_append.mp ht with hl | hr
    · exact absurd (mem_tasksOfKind.mpr ⟨hl, hk⟩) (by simp [hb0])
    · rcases List.mem_singleton.mp hr with rfl
      rfl
  · show hbCount _ ≤ 1
    unfold hbCount
    rw [tasksOfKind_append, hb0]
    simp [tasksOfKind]
  · intro t ht hk
    rcases List.mem_append.mp ht with hl | hr
    · exact i4 t (mem_clearT hl) hk
    · rcases List.mem_singleton.mp hr with rfl
      exact TaskKind.noConfusion hk
  · intro t ht hk
    rcases List.mem_append.mp ht with hl | hr
    · exact i5 t (mem_clearT hl) hk
    · rcases List.mem_singleton.mp hr with rfl
      exact TaskKind.noConfusion hk
  · intro ha
    have h0 : tasksOfKind TaskKind.checker w.pending = [] := count_zero_iff.mp (i6 ha)
    show checkerCount _ = 0
    unfold checkerCount
    rw [tasksOfKind_append, tasksOfKind_eq_nil_of_sublist (clearT_sublist _ _) h0]
    simp [tasksOfKind]

lemma invAll_start {w : World} (h : InvAll w) (cb : Option Nat) : InvAll (start w cb) := by
  obtain ⟨i1, i2, i3, i4, i5, i6⟩ := h
  by_cases hth : w.s.accessToken = none ∧ w.s.requireAuthentication = true
  · rw [start_throw w cb hth]
    exact invAll_trace_neutral ⟨i1, i2, i3, i4, i5, i6⟩ _ (fun n => by simp [liveSteps])
  · obtain ⟨hb0, chk0, rec0⟩ := cleared_kinds i2 i4 i5
    cases hes : w.s.eventSource with
    | none =>
      rw [start_opens_none w cb hth hes]
      refine ⟨?_, linkedKind_of_nil hb0 _, ?_, linkedKind_of_nil chk0 _,
        linkedKind_of_nil rec0 _, ?_⟩
      · show liveSteps 0 (w.trace ++ _) = some _
        rw [liveSteps_append, i1]
        simp [esInd, hes, liveSteps]
      · show hbCount _ ≤ 1
        simp [hbCount, hb0]
      · intro _
        show checkerCount _ = 0
        simp [checkerCount, chk0]
    | some es =>
      rw [start_opens_some w cb es hth hes]
      have hsub : (clearT w.s.pingTimeout (clearT w.s.reconnectTimeout
          (clearT w.s.checkerInterval (clearT w.s.pingTimeout (clearT w.s.reconnectTimeout
            (clearT w.s.checkerInterval w.pending)))))).Sublist
          (clearT w.s.pingTimeout (clearT w.s.reconnectTimeout
            (clearT w.s.checkerInterval w.pending))) :=
        ((clearT_sublist _ _).trans (clearT_sublist _ _)).trans (clearT_sublist _ _)
      have hb2 := tasksOfKind_eq_nil_of_sublist (k := TaskKind.heartbeat) hsub hb0
      have chk2 := tasksOfKind_eq_nil_of_sublist (k := TaskKind.checker) hsub chk0
      have rec2 := tasksOfKind_eq_nil_of_sublist (k := TaskKind.reconnect) hsub rec0
      refine ⟨?_, linkedKind_of_nil hb2 _, ?_, linkedKind_of_nil chk2 _,
        linkedKind_of_nil rec2 _, ?_⟩
      · show liveSteps 0 (w.trace ++ _) = some _
        rw [liveSteps_append, i1]
        simp [esInd, hes, liveSteps]
      · show hbCount _ ≤ 1
        simp [hbCount, hb2]
      · intro _
        show checkerCount _ = 0
        simp [checkerCount, chk2]

lemma invAll_stop {w : World} (h : InvAll w) : InvAll (stop w) := by
  obtain ⟨i1, i2, i3, i4, i5, i6⟩ := h
  exact invAll_closeEventSource ⟨i1, i2, i3, i4, i5, i6⟩



lemma invAll_retry {w : World} (h : InvAll w) : InvAll (retryWithNewAccessToken w) := by
  have h1 : InvAll { w with trace := w.trace ++ [Act.retryRefreshInvoked] } :=
    invAll_trace_neutral h _ (fun n => by simp [liveSteps])
  have h2 : InvAll (closeEventSource { w with trace := w.trace ++ [Act.retryRefreshInvoked] }) :=
    invAll_closeEventSource h1
  unfold retryWithNewAccessToken
  dsimp only
  split
  · split
    · obtain ⟨i1, i2, i3, i4, i5, i6⟩ := h2
      exact ⟨i1, i2, i3, i4, i5, i6⟩
    · obtain ⟨i1, i2, i3, i4, i5, i6⟩ := h2
      exact ⟨i1, i2, i3, i4, i5, i6⟩
    · exact h2
  · exact invAll_trace_neutral h2 _ (fun n => by simp [liveSteps])

lemma invAll_resolveRefreshLogin {w : World} (h : InvAll w) (ok : Bool) (token : String) :
    InvAll (resolveRefreshLogin w ok token) := by
  obtain ⟨i1, i2, i3, i4, i5, i6⟩ := h
  unfold resolveRefreshLogin
  split
  · split
    · refine ⟨i1, ?_, ?_, ?_, ?_, ?_⟩
      · intro t ht hk
        rcases List.mem_append.mp ht with hl | hr
        · exact i2 t hl hk
        · rcases List.mem_singleton.mp hr with rfl
          exact TaskKind.noConfusion hk
      · show hbCount _ ≤ 1
        unfold hbCount
        rw [tasksOfKind_append]
        simpa [tasksOfKind] using i3
      · intro t ht hk
        rcases List.mem_append.mp ht with hl | hr
        · exact i4 t hl hk
        · rcases List.mem_singleton.mp hr with rfl
          exact TaskKind.noConfusion hk
      · intro t ht hk
        rcases List.mem_append.mp ht with hl | hr
        · exact i5 t hl hk
        · rcases List.mem_singleton.mp hr with rfl
          exact TaskKind.noConfusion hk
      · intro ha
        show checkerCount _ = 0
        unfold checkerCount
        rw [tasksOfKind_append, count_zero_iff.mp (i6 ha)]
        simp [tasksOfKind]
    · exact ⟨i1, i2, i3, i4, i5, i6⟩
  · exact ⟨i1, i2, i3, i4, i5, i6⟩



lemma invAll_onOpen {w : World} (h : InvAll w) (esId : Nat) : InvAll (onOpen w esId) := by
  obtain ⟨i1, i2, i3, i4, i5, i6⟩ := h
  unfold onOpen
  cases hes : w.s.eventSource with
  | none => exact ⟨by simpa [esInd, hes] using i1, i2, i3, i4, i5, by simpa [hes] using i6⟩
  | some es =>
    dsimp only
    by_cases hg : es.id = esId ∧ es.readyState = 0
    · rw [if_pos hg]
      have hchk0 : tasksOfKind TaskKind.checker w.pending = [] :=
        count_zero_iff.mp (i6 (Or.inr ⟨es, hes, hg.2⟩))
      -- the world after marking the transport open
      have h1 : InvAll { w with s := { w.s with eventSource := some ⟨es.id, 1⟩ } } := by
        refine ⟨?_, i2, i3, i4, i5, ?_⟩
        · show liveSteps 0 w.trace = some _
          rw [i1]
          simp [esInd, hes]
        · intro ha
          rcases ha with ha | ⟨es2, hes2, hrs⟩
          · exact absurd ha (by simp)
          · rw [show es2 = ⟨es.id, 1⟩ from (Option.some.inj hes2).symm] at hrs
            exact absurd hrs (by simp)
      have h2 := invAll_messageReceived h1
      obtain ⟨j1, j2, j3, j4, j5, j6⟩ := h2
      have hchk2 : tasksOfKind TaskKind.checker
          (messageReceived { w with s := { w.s with eventSource := some ⟨es.id, 1⟩ } }).pending
            = [] := by
        rw [messageReceived_eq]
        show tasksOfKind TaskKind.checker (clearT _ w.pending ++ [_]) = []
        rw [tasksOfKind_append, tasksOfKind_eq_nil_of_sublist (clearT_sublist _ _) hchk0]
        simp [tasksOfKind]
      refine ⟨j1, ?_, ?_, ?_, ?_, ?_⟩
      · intro t ht hk
        rcases List.mem_append.mp ht with hl | hr
        · exact j2 t hl hk
        · rcases List.mem_singleton.mp hr with rfl
          exact TaskKind.noConfusion hk
      · show hbCount _ ≤ 1
        unfold hbCount
        rw [tasksOfKind_append]
        simpa [tasksOfKind] using j3
      · intro t ht hk
        show some _ = some t.id
        rcases List.mem_append.mp ht with hl | hr
        · exact absurd (mem_tasksOfKind.mpr ⟨hl, hk⟩) (by simp [hchk2])
        · rcases List.mem_singleton.mp hr with rfl
          rfl
      · intro t ht hk
        rcases List.mem_append.mp ht with hl | hr
        · exact j5 t hl hk
        · rcases List.mem_singleton.mp hr with rfl
          exact TaskKind.noConfusion hk
      · intro ha
        exfalso
        rcases ha with ha | ⟨es2, hes2, hrs⟩
        · exact Option.noConfusion ha
        · rw [show es2 = ⟨es.id, 1⟩ from (Option.some.inj hes2).symm] at hrs
          exact Nat.noConfusion hrs
    · rw [if_neg hg]
      exact ⟨by simpa [esInd, hes] using i1, i2, i3, i4, i5, by simpa [hes] using i6⟩



lemma invAll_onMessage {w : World} (h : InvAll w) (esId : Nat) (d : Option ParsedMessage) :
    InvAll (onMessage w esId d) := by
  unfold onMessage
  cases hes : w.s.eventSource with
  | none => exact h
  | some es =>
    dsimp only
    by_cases hg : es.id = esId
    · rw [if_pos hg]
      cases d with
      | none => exact invAll_messageReceived h
      | some m =>
        dsimp only
        have h2 : InvAll { messageReceived w with
            trace := (messageReceived w).trace ++ [Act.deliver m] } :=
          invAll_trace_neutral (invAll_messageReceived h) _ (fun n => by simp [liveSteps])
        by_cases hTE : m.type = some "system" ∧ m.code = some 401 ∧
            m.subType = some "TOKEN_EXPIRED"
        · rw [if_pos hTE]
          by_cases hIA : m.type = some "system" ∧ m.code = some 401 ∧
              m.subType = some "INVALID_ACCESS_TOKEN"
          · rw [if_pos hIA]
            exact invAll_retry (invAll_retry h2)
          · rw [if_neg hIA]
            exact invAll_retry h2
        · rw [if_neg hTE]
          by_cases hIA : m.type = some "system" ∧ m.code = some 401 ∧
              m.subType = some "INVALID_ACCESS_TOKEN"
          · rw [if_pos hIA]
            exact invAll_retry h2
          · rw [if_neg hIA]
            exact h2
    · rw [if_neg hg]
      exact h

lemma invAll_onError {w : World} (h : InvAll w) (esId : Nat) : InvAll (onError w esId) := by
  obtain ⟨i1, i2, i3, i4, i5, i6⟩ := h
  unfold onError
  cases hes : w.s.eventSource with
  | none => exact ⟨i1, i2, i3, i4, i5, i6⟩
  | some es =>
    dsimp only
    by_cases hg : es.id = esId
    · rw [if_pos hg]
      rw [closeEventSource_some
        { w with pending := clearT w.s.reconnectTimeout (clearT w.s.checkerInterval w.pending) }
        es hes]
      have hb0 : tasksOfKind TaskKind.heartbeat (clearT w.s.pingTimeout
          (clearT w.s.reconnectTimeout (clearT w.s.checkerInterval
            (clearT w.s.reconnectTimeout (clearT w.s.checkerInterval w.pending))))) = [] :=
        linked_clear_all (linkedKind_clearT (linkedKind_clearT
          (linkedKind_clearT (linkedKind_clearT i2))))
      have chk0 : tasksOfKind TaskKind.checker (clearT w.s.pingTimeout
          (clearT w.s.reconnectTimeout (clearT w.s.checkerInterval
            (clearT w.s.reconnectTimeout (clearT w.s.checkerInterval w.pending))))) = [] := by
        have hinner : tasksOfKind TaskKind.checker (clearT w.s.checkerInterval w.pending) = [] :=
          linked_clear_all i4
        exact tasksOfKind_eq_nil_of_sublist (clearT_sublist _ _)
          (tasksOfKind_eq_nil_of_sublist (clearT_sublist _ _)
            (tasksOfKind_eq_nil_of_sublist (clearT_sublist _ _)
              (tasksOfKind_eq_nil_of_sublist (clearT_sublist _ _) hinner)))
      have rec0 : tasksOfKind TaskKind.reconnect (clearT w.s.pingTimeout
          (clearT w.s.reconnectTimeout (clearT w.s.checkerInterval
            (clearT w.s.reconnectTimeout (clearT w.s.checkerInterval w.pending))))) = [] := by
        have hinner : tasksOfKind TaskKind.reconnect
            (clearT w.s.reconnectTimeout (clearT w.s.checkerInterval w.pending)) = [] :=
          linked_clear_all (linkedKind_clearT i5)
        exact tasksOfKind_eq_nil_of_sublist (clearT_sublist _ _)
          (tasksOfKind_eq_nil_of_sublist (clearT_sublist _ _)
            (tasksOfKind_eq_nil_of_sublist (clearT_sublist _ _) hinner))
      refine ⟨?_, ?_, ?_, ?_, ?_, ?_⟩
      · show liveSteps 0 (w.trace ++ _) = some _
        rw [liveSteps_append, i1]
        simp [esInd, hes, liveSteps]
      · intro t ht hk
        rcases List.mem_append.mp ht with hl | hr
        · exact absurd (mem_tasksOfKind.mpr ⟨hl, hk⟩) (by simp [hb0])
        · rcases List.mem_singleton.mp hr with rfl
          exact TaskKind.noConfusion hk
      · show hbCount _ ≤ 1
        unfold hbCount
        rw [tasksOfKind_append, hb0]
        simp [tasksOfKind]
      · intro t ht hk
        rcases List.mem_append.mp ht with hl | hr
        · exact absurd (mem_tasksOfKind.mpr ⟨hl, hk⟩) (by simp [chk0])
        · rcases List.mem_singleton.mp hr with rfl
          exact TaskKind.noConfusion hk
      · intro t ht hk
        show some _ = some t.id
        rcases List.mem_append.mp ht with hl | hr
        · exact absurd (mem_tasksOfKind.mpr ⟨hl, hk⟩) (by simp [rec0])
        · rcases List.mem_singleton.mp hr with rfl
          rfl
      · intro _
        show checkerCount _ = 0
        unfold checkerCount
        rw [tasksOfKind_append, chk0]
        simp [tasksOfKind]
    · rw [if_neg hg]
      exact ⟨i1, i2, i3, i4, i5, i6⟩

lemma invAll_onRemoteClose {w : World} (h : InvAll w) (esId : Nat) :
    InvAll (onRemoteClose w esId) := by
  obtain ⟨i1, i2, i3, i4, i5, i6⟩ := h
  unfold onRemoteClose
  cases hes : w.s.eventSource with
  | none => exact ⟨i1, i2, i3, i4, i5, i6⟩
  | some es =>
    dsimp only
    by_cases hg : es.id = esId
    · rw [if_pos hg]
      refine ⟨?_, i2, i3, i4, i5, ?_⟩
      · show liveSteps 0 w.trace = some _
        rw [i1]
        simp [esInd, hes]
      · intro ha
        exfalso
        rcases ha with ha | ⟨es2, hes2, hrs⟩
        · exact Option.noConfusion ha
        · rw [show es2 = ⟨es.id, 2⟩ from (Option.some.inj hes2).symm] at hrs
          exact Nat.noConfusion hrs
    · rw [if_neg hg]
      exact ⟨i1, i2, i3, i4, i5, i6⟩

lemma invAll_runTask {w : World} (h : InvAll w) (k : TaskKind) : InvAll (runTask w k) := by
  unfold runTask
  cases k with
  | heartbeat =>
    cases hcb : w.s.eventCallback with
    | none => exact h
    | some cb =>
      exact invAll_start (invAll_trace_neutral h _ (fun n => by simp [liveSteps])) _
  | checker =>
    cases hes : w.s.eventSource with
    | none => exact h
    | some es =>
      dsimp only
      split
      · exact invAll_start h _
      · exact h
  | reconnect => exact invAll_start h _
  | refreshDelay => exact invAll_start h _

lemma invAll_fireTimer {w : World} (h : InvAll w) (tid : Nat) : InvAll (fireTimer w tid) := by
  obtain ⟨i1, i2, i3, i4, i5, i6⟩ := h
  unfold fireTimer
  cases hf : w.pending.find? (fun t => t.id == tid) with
  | none => exact ⟨i1, i2, i3, i4, i5, i6⟩
  | some t =>
    dsimp only
    have htmem : t ∈ w.pending := List.mem_of_find?_eq_some hf
    have h1 : InvAll { w with
        now := t.fireAt
        pending := w.pending.filter (fun u => u.id != tid) } := by
      refine ⟨i1, ?_, ?_, ?_, ?_, ?_⟩
      · exact fun u hu hk => i2 u (List.mem_of_mem_filter hu) hk
      · exact le_trans (List.Sublist.length_le
          (tasksOfKind_sublist_of_sublist (List.filter_sublist _))) i3
      · exact fun u hu hk => i4 u (List.mem_of_mem_filter hu) hk
      · exact fun u hu hk => i5 u (List.mem_of_mem_filter hu) hk
      · intro ha
        exact Nat.le_zero.mp (le_trans (List.Sublist.length_le
          (tasksOfKind_sublist_of_sublist (List.filter_sublist _)))
          (Nat.le_of_eq (i6 ha)))
    split
    · rename_i hk
      have hlink : w.s.checkerInterval = some t.id := i4 t htmem hk
      obtain ⟨j1, j2, j3, j4, j5, j6⟩ := h1
      have h2 : InvAll { w with
          now := t.fireAt
          pending := w.pending.filter (fun u => u.id != tid)
            ++ [⟨t.id, t.fireAt + 1000, TaskKind.checker⟩] } := by
        refine ⟨j1, ?_, ?_, ?_, ?_, ?_⟩
        · intro u hu hu2
          rcases List.mem_append.mp hu with hl | hr
          · exact j2 u hl hu2
          · rcases List.mem_singleton.mp hr with rfl
            exact TaskKind.noConfusion hu2
        · show hbCount _ ≤ 1
          unfold hbCount
          rw [tasksOfKind_append]
          simpa [hbCount, tasksOfKind] using j3
        · intro u hu hu2
          show w.s.checkerInterval = some u.id
          rcases List.mem_append.mp hu with hl | hr
          · exact j4 u hl hu2
          · rcases List.mem_singleton.mp hr with rfl
            exact hlink
        · intro u hu hu2
          rcases List.mem_append.mp hu with hl | hr
          · exact j5 u hl hu2
          · rcases List.mem_singleton.mp hr with rfl
            exact TaskKind.noConfusion hu2
        · intro ha
          exfalso
          have h0 : tasksOfKind TaskKind.checker w.pending = [] := count_zero_iff.mp (i6 ha)
          exact absurd (mem_tasksOfKind.mpr ⟨htmem, hk⟩) (by simp [h0])
      exact invAll_runTask h2 _
    · exact invAll_runTask h1 _

lemma invAll_step {w : World} (h : InvAll w) (e : Ev) : InvAll (step w e) := by
  obtain ⟨i1, i2, i3, i4, i5, i6⟩ := h
  cases e with
  | extStart cb => exact invAll_start ⟨i1, i2, i3, i4, i5, i6⟩ _
  | extStop => exact invAll_stop ⟨i1, i2, i3, i4, i5, i6⟩
  | extCloseEventSource => exact invAll_closeEventSource ⟨i1, i2, i3, i4, i5, i6⟩
  | extSetAccessToken t => exact ⟨i1, i2, i3, i4, i5, i6⟩
  | extRetryWithNewAccessToken => exact invAll_retry ⟨i1, i2, i3, i4, i5, i6⟩
  | extLoginHashed e h => exact ⟨i1, i2, i3, i4, i5, i6⟩
  | extHubLogin i t => exact ⟨i1, i2, i3, i4, i5, i6⟩
  | loginSucceeded t => exact ⟨i1, i2, i3, i4, i5, i6⟩
  | esOpen i => exact invAll_onOpen ⟨i1, i2, i3, i4, i5, i6⟩ i
  | esMessage i d => exact invAll_onMessage ⟨i1, i2, i3, i4, i5, i6⟩ i d
  | esError i => exact invAll_onError ⟨i1, i2, i3, i4, i5, i6⟩ i
  | esRemoteClose i => exact invAll_onRemoteClose ⟨i1, i2, i3, i4, i5, i6⟩ i
  | resolveRefreshLogin ok t => exact invAll_resolveRefreshLogin ⟨i1, i2, i3, i4, i5, i6⟩ ok t
  | timer tid => exact invAll_fireTimer ⟨i1, i2, i3, i4, i5, i6⟩ tid
  | advance t => exact ⟨i1, i2, i3, i4, i5, i6⟩

lemma invAll_run {w : World} (h : InvAll w) (evs : List Ev) : InvAll (run w evs) := by
  induction evs generalizing w with
  | nil => exact h
  | cons e rest ih => exact ih (invAll_step h e)

lemma invAll_mkWorld (s : Session) (hes : s.eventSource = none) : InvAll (mkWorld s) := by
  refine ⟨?_, ?_, ?_, ?_, ?_, ?_⟩ <;>
    simp [mkWorld, liveSteps, esInd, hes, linkedKind, hbCount, checkerCount, tasksOfKind]

lemma closeEventSource_pending (v : World) :
    (closeEventSource v).pending = clearT v.s.pingTimeout
      (clearT v.s.reconnectTimeout (clearT v.s.checkerInterval v.pending)) := by
  cases h : v.s.eventSource with
  | none => rw [closeEventSource_none v h]
  | some es => rw [closeEventSource_some v es h]

lemma closeEventSource_es (v : World) : (closeEventSource v).s.eventSource = none := by
  cases h : v.s.eventSource with
  | none =>
    rw [closeEventSource_none v h]
    exact h
  | some es =>
    rw [closeEventSource_some v es h]

lemma closeEventSource_countOpen (v : World) :
    countOpenNew (closeEventSource v).trace = countOpenNew v.trace := by
  cases h : v.s.eventSource with
  | none => rw [closeEventSource_none v h]
  | some es =>
    rw [closeEventSource_some v es h]
    show countOpenNew (v.trace ++ _) = _
    unfold countOpenNew
    rw [List.filter_append]
    simp

lemma clearT_nil (f : Option Nat) : clearT f [] = [] := by
  cases f <;> rfl

/-- A stopped-dead world — no handle, nothing pending, no refresh chain in
flight, auto-reconnect off — stays dead under every event that is not an
external `start` call, and its trace gains no `openNew`. -/
lemma dead_step {w : World} (hes : w.s.eventSource = none) (hp : w.pending = [])
    (hch : w.refreshChain = none) (har : w.s.autoreconnect = false) (e : Ev)
    (he : noStartCall e = true) :
    (step w e).s.eventSource = none ∧ (step w e).pending = []
    ∧ (step w e).refreshChain = none ∧ (step w e).s.autoreconnect = false
    ∧ countOpenNew (step w e).trace = countOpenNew w.trace := by
  cases e with
  | extStart cb => exact absurd he (by simp [noStartCall])
  | extStop =>
    refine ⟨closeEventSource_es _, ?_, ?_, ?_, ?_⟩
    · show (closeEventSource _).pending = []
      rw [closeEventSource_pending]
      simp [hp, clearT_nil]
    · show (closeEventSource _).refreshChain = none
      cases h : ({ w with s := { w.s with autoreconnect := false } } : World).s.eventSource with
      | none => rw [closeEventSource_none _ h]; exact hch
      | some es => rw [closeEventSource_some _ es h]; exact hch
    · show (closeEventSource _).s.autoreconnect = false
      cases h : ({ w with s := { w.s with autoreconnect := false } } : World).s.eventSource with
      | none => rw [closeEventSource_none _ h]
      | some es => rw [closeEventSource_some _ es h]
    · exact closeEventSource_countOpen _
  | extCloseEventSource =>
    unfold step
    refine ⟨closeEventSource_es _, ?_, ?_, ?_, ?_⟩
    · rw [closeEventSource_pending]
      simp [hp, clearT_nil]
    · cases h : w.s.eventSource with
      | none => rw [closeEventSource_none _ h]; exact hch
      | some es => rw [closeEventSource_some _ es h]; exact hch
    · cases h : w.s.eventSource with
      | none => rw [closeEventSource_none _ h]; exact har
      | some es => rw [closeEventSource_some _ es h]; exact har
    · exact closeEventSource_countOpen _
  | extSetAccessToken t => exact ⟨hes, hp, hch, har, rfl⟩
  | extRetryWithNewAccessToken =>
    unfold step retryWithNewAccessToken
    dsimp only
    rw [closeEventSource_none _ (by exact hes)]
    rw [if_neg (by simp [har])]
    refine ⟨hes, by simp [hp, clearT_nil], hch, har, ?_⟩
    show countOpenNew ((w.trace ++ [Act.retryRefreshInvoked]) ++ [Act.deliver terminalNoRetry])
      = countOpenNew w.trace
    unfold countOpenNew
    rw [List.filter_append, List.filter_append]
    simp
  | extLoginHashed e h => exact ⟨hes, hp, hch, har, rfl⟩
  | extHubLogin i t => exact ⟨hes, hp, hch, har, rfl⟩
  | loginSucceeded t => exact ⟨hes, hp, hch, har, rfl⟩
  | esOpen i =>
    unfold step onOpen
    rw [hes]
    exact ⟨hes, hp, hch, har, rfl⟩
  | esMessage i d =>
    unfold step onMessage
    rw [hes]
    exact ⟨hes, hp, hch, har, rfl⟩
  | esError i =>
    unfold step onError
    rw [hes]
    exact ⟨hes, hp, hch, har, rfl⟩
  | esRemoteClose i =>
    unfold step onRemoteClose
    rw [hes]
    exact ⟨hes, hp, hch, har, rfl⟩
  | resolveRefreshLogin ok t =>
    unfold step resolveRefreshLogin
    rw [hch]
    exact ⟨hes, hp, hch, har, rfl⟩
  | timer tid =>
    unfold step fireTimer
    rw [hp]
    exact ⟨hes, hp, hch, har, rfl⟩
  | advance t => exact ⟨hes, hp, hch, har, rfl⟩

lemma dead_run {w : World} (hes : w.s.eventSource = none) (hp : w.pending = [])
    (hch : w.refreshChain = none) (har : w.s.autoreconnect = false) (evs : List Ev)
    (he : ∀ e ∈ evs, noStartCall e = true) :
    (run w evs).s.eventSource = none ∧ (run w evs).pending = []
    ∧ (run w evs).refreshChain = none ∧ (run w evs).s.autoreconnect = false
    ∧ countOpenNew (run w evs).trace = countOpenNew w.trace := by
  induction evs generalizing w with
  | nil => exact ⟨hes, hp, hch, har, rfl⟩
  | cons e rest ih =>
    obtain ⟨d1, d2, d3, d4, d5⟩ :=
      dead_step hes hp hch har e (he e (List.mem_cons_self e rest))
    obtain ⟨r1, r2, r3, r4, r5⟩ :=
      ih d1 d2 d3 d4 (fun x hx => he x (List.mem_cons_of_mem e hx))
    exact ⟨r1, r2, r3, r4, r5.trans d5⟩

lemma closeEventSource_fields (v : World) :
    (closeEventSource v).s.autoreconnect = v.s.autoreconnect
    ∧ (closeEventSource v).refreshChain = v.refreshChain := by
  cases h : v.s.eventSource with
  | none =>
    rw [closeEventSource_none v h]
    exact ⟨rfl, rfl⟩
  | some es =>
    rw [closeEventSource_some v es h]
    exact ⟨rfl, rfl⟩

lemma hb_rearm {w : World}
    (h2 : linkedKind TaskKind.heartbeat w.s.pingTimeout w.pending) :
    tasksOfKind TaskKind.heartbeat (messageReceived w).pending
      = [⟨w.nextId, w.now + 40000, TaskKind.heartbeat⟩] := by
  rw [messageReceived_eq]
  show tasksOfKind _ (clearT _ _ ++ _) = _
  rw [tasksOfKind_append, linked_clear_all h2]
  simp [tasksOfKind]

/-! ### Claims about the pure functions -/

/-- Claim C7: `retryLogin()` dispatches on the credential record — hub branch
first (preferred when both are present), then the user branch, and fails with
the `NO_CREDENTIALS` error when neither branch is set. -/
theorem C7_retryLogin_dispatch (r : CachedLoginData) :
    (∀ h, r.hub = some h →
      retryLoginDispatch (some r) = Except.ok (LoginAttempt.hub h.hubId h.hubToken))
    ∧ (∀ u, r.hub = none → r.user = some u →
      retryLoginDispatch (some r) = Except.ok (LoginAttempt.user u.email u.hashedPassword))
    ∧ (r.hub = none → r.user = none →
      retryLoginDispatch (some r) = Except.error RetryLoginFailure.noCredentials) := by
  refine ⟨?_, ?_, ?_⟩
  · intro h hh
    simp [retryLoginDispatch, hh]
  · intro u hh hu
    simp [retryLoginDispatch, hh, hu]
  · intro hh hu
    simp [retryLoginDispatch, hh, hu]

/-- Witness for C7 at concrete credential records. -/
theorem C7_witness :
    retryLoginDispatch (some ⟨some ⟨"a@b.com", "hash1"⟩, some ⟨"hub1", "tok1"⟩⟩)
      = Except.ok (LoginAttempt.hub "hub1" "tok1")
    ∧ retryLoginDispatch (some ⟨some ⟨"a@b.com", "hash1"⟩, none⟩)
      = Except.ok (LoginAttempt.user "a@b.com" "hash1")
    ∧ retryLoginDispatch (some ⟨none, none⟩)
      = Except.error RetryLoginFailure.noCredentials :=
  ⟨(C7_retryLogin_dispatch ⟨some ⟨"a@b.com", "hash1"⟩, some ⟨"hub1", "tok1"⟩⟩).1
      ⟨"hub1", "tok1"⟩ rfl,
   (C7_retryLogin_dispatch ⟨some ⟨"a@b.com", "hash1"⟩, none⟩).2.1
      ⟨"a@b.com", "hash1"⟩ rfl rfl,
   (C7_retryLogin_dispatch ⟨none, none⟩).2.2 rfl rfl⟩

/-- Claim C9: the constructor normalizes the hub-login base URL to end with
`'/'`, appending one exactly when the last character is not already `'/'`,
and `hubLogin` issues its POST to `base ++ hubId ++ "/login?token=" ++ token`;
in particular a base lacking the trailing slash gets exactly one `'/'`
inserted between the base and the hub id. -/
theorem C9_hub_base_normalization (b hubId tok : String) :
    (normalizeHubBase b).data.getLast? = some '/'
    ∧ (b.data.getLast? = some '/' → normalizeHubBase b = b)
    ∧ (b.data.getLast? ≠ some '/' →
        normalizeHubBase b = b ++ "/"
        ∧ hubLoginCombinedUrl (normalizeHubBase b) hubId tok
            = b ++ "/" ++ hubId ++ "/login?token=" ++ tok)
    ∧ hubLoginCombinedUrl (normalizeHubBase "https://cloud.ownstone.org/api/Hubs") "hub1" "tok1"
        = "https://cloud.ownstone.org/api/Hubs/hub1/login?token=tok1" := by
  refine ⟨?_, ?_, ?_, by decide⟩
  · by_cases h : b.data.getLast? = some '/'
    · simp [normalizeHubBase, h]
    · have : (b ++ "/").data = b.data ++ ['/'] := String.data_append b "/"
      simp [normalizeHubBase, h, this, List.getLast?_concat]
  · intro h
    simp [normalizeHubBase, h]
  · intro h
    refine ⟨by simp [normalizeHubBase, h], ?_⟩
    simp [normalizeHubBase, h, hubLoginCombinedUrl]

/-- Witness for C9: a base URL without a trailing slash. -/
theorem C9_witness :
    (normalizeHubBase "https://x/Hubs").data.getLast? = some '/'
    ∧ ("https://x/Hubs" : String).data.getLast? ≠ some '/'
    ∧ normalizeHubBase "https://x/Hubs" = "https://x/Hubs" ++ "/"
    ∧ hubLoginCombinedUrl (normalizeHubBase "https://x/Hubs") "hub1" "tok1"
        = "https://x/Hubs" ++ "/" ++ "hub1" ++ "/login?token=" ++ "tok1" :=
  ⟨(C9_hub_base_normalization "https://x/Hubs" "hub1" "tok1").1,
   by decide,
   ((C9_hub_base_normalization "https://x/Hubs" "hub1" "tok1").2.2.1 (by decide)).1,
   ((C9_hub_base_normalization "https://x/Hubs" "hub1" "tok1").2.2.1 (by decide)).2⟩

/-- Claim C10: the constructor defaults both flags to `true` when the options
object is absent or omits them (overriding the field initializer's
`autoreconnect = false`), and uses the exact caller-supplied boolean —
including `false` — when one is given. -/
theorem C10_constructor_flag_defaults :
    initSession.autoreconnect = false
    ∧ (∀ v, (mkSession v none).autoreconnect = true
        ∧ (mkSession v none).requireAuthentication = true)
    ∧ (∀ v o, o.autoreconnect = none → (mkSession v (some o)).autoreconnect = true)
    ∧ (∀ v o b, o.autoreconnect = some b → (mkSession v (some o)).autoreconnect = b)
    ∧ (∀ v o, o.requireAuthentication = none →
        (mkSession v (some o)).requireAuthentication = true)
    ∧ (∀ v o b, o.requireAuthentication = some b →
        (mkSession v (some o)).requireAuthentication = b) := by
  refine ⟨rfl, fun v => ⟨rfl, rfl⟩, ?_, ?_, ?_, ?_⟩
  · intro v o h
    simp [mkSession, h]
  · intro v o b h
    simp [mkSession, h]
  · intro v o h
    simp [mkSession, h]
  · intro v o b h
    simp [mkSession, h]

/-- Witness for C10: explicit `false` values are kept, omitted fields default
to `true`. -/
theorem C10_witness :
    (mkSession "1.0.0" (some ⟨none, none, none, none, some false, none⟩)).autoreconnect = false
    ∧ (mkSession "1.0.0" (some ⟨none, none, none, none, some false, none⟩)).requireAuthentication
        = true
    ∧ (mkSession "1.0.0" (some ⟨none, none, none, none, none, some false⟩)).requireAuthentication
        = false :=
  ⟨C10_constructor_flag_defaults.2.2.2.1 "1.0.0" ⟨none, none, none, none, some false, none⟩
      false rfl,
   C10_constructor_flag_defaults.2.2.2.2.1 "1.0.0" ⟨none, none, none, none, some false, none⟩ rfl,
   C10_constructor_flag_defaults.2.2.2.2.2 "1.0.0" ⟨none, none, none, none, none, some false⟩
      false rfl⟩

/-- Claim C6: `start(callback)` fails synchronously — before storing the
callback, touching timers, or opening any connection, which the exact
record-update equality expresses — exactly when authentication is required
and the access token is null; in every other case it stores the callback and
opens a new connection. -/
theorem C6_start_auth_guard (w : World) (cb : Option Nat) :
    (w.s.accessToken = none ∧ w.s.requireAuthentication = true →
      start w cb = { w with trace := w.trace ++ [Act.throwAuthRequired] })
    ∧ (¬(w.s.accessToken = none ∧ w.s.requireAuthentication = true) →
      (start w cb).s.eventCallback = cb
      ∧ (start w cb).s.eventSource = some ⟨w.nextId, 0⟩
      ∧ countOpenNew (start w cb).trace = countOpenNew w.trace + 1) := by
  constructor
  · intro h
    exact start_throw w cb h
  · intro h
    cases hes : w.s.eventSource with
    | none =>
      rw [start_opens_none w cb h hes]
      simp [countOpenNew, List.filter_append]
    | some es =>
      rw [start_opens_some w cb es h hes]
      simp [countOpenNew, List.filter_append]

/-- Witness for C6: a fresh authenticated session with no token throws and
stays untouched; the same session with authentication not required opens. -/
theorem C6_witness :
    start (mkWorld (mkSession "1.0.0" none)) (some 7)
      = { mkWorld (mkSession "1.0.0" none) with
          trace := (mkWorld (mkSession "1.0.0" none)).trace ++ [Act.throwAuthRequired] }
    ∧ (start (mkWorld (mkSession "1.0.0"
        (some ⟨none, none, none, none, none, some false⟩))) (some 7)).s.eventSource
      = some ⟨0, 0⟩ :=
  ⟨(C6_start_auth_guard (mkWorld (mkSession "1.0.0" none)) (some 7)).1 (by decide),
   ((C6_start_auth_guard (mkWorld (mkSession "1.0.0"
      (some ⟨none, none, none, none, none, some false⟩))) (some 7)).2 (by decide)).2.1⟩

/-- Claim C8: every connection `start` opens targets the configured SSE URL
with `?accessToken=<token>&projectName=<client identifier>` appended exactly
when authentication is required, and the bare SSE URL otherwise; in
particular `setAccessToken(t)` followed by `start(cb)` with authentication
required opens a URL carrying `accessToken=t`. -/
theorem C8_start_url (w : World) (cb : Option Nat) (t : String) :
    (w.s.requireAuthentication = true → w.s.accessToken = some t →
      openUrls (start w cb).trace = openUrls w.trace ++
        [w.s.sse_url ++ "?accessToken=" ++ t ++ "&projectName=" ++ jsStr w.s.projectName])
    ∧ (w.s.requireAuthentication = false →
      openUrls (start w cb).trace = openUrls w.trace ++ [w.s.sse_url])
    ∧ (w.s.requireAuthentication = true →
      openUrls (start (setAccessToken w t) cb).trace = openUrls w.trace ++
        [w.s.sse_url ++ "?accessToken=" ++ t ++ "&projectName=" ++ jsStr w.s.projectName]) := by
  refine ⟨?_, ?_, ?_⟩
  · intro hauth htok
    have h : ¬(w.s.accessToken = none ∧ w.s.requireAuthentication = true) := by
      simp [htok]
    cases hes : w.s.eventSource with
    | none =>
      rw [start_opens_none w cb h hes]
      simp [openUrls, List.filterMap_append, buildStartUrl, hauth, htok, jsStr]
    | some es =>
      rw [start_opens_some w cb es h hes]
      simp [openUrls, List.filterMap_append, buildStartUrl, hauth, htok, jsStr]
  · intro hauth
    have h : ¬(w.s.accessToken = none ∧ w.s.requireAuthentication = true) := by
      simp [hauth]
    cases hes : w.s.eventSource with
    | none =>
      rw [start_opens_none w cb h hes]
      simp [openUrls, List.filterMap_append, buildStartUrl, hauth]
    | some es =>
      rw [start_opens_some w cb es h hes]
      simp [openUrls, List.filterMap_append, buildStartUrl, hauth]
  · intro hauth
    have h : ¬((setAccessToken w t).s.accessToken = none
        ∧ (setAccessToken w t).s.requireAuthentication = true) := by
      simp [setAccessToken]
    cases hes : (setAccessToken w t).s.eventSource with
    | none =>
      rw [start_opens_none _ cb h hes]
      simp [openUrls, List.filterMap_append, buildStartUrl, setAccessToken, hauth, jsStr]
    | some es =>
      rw [start_opens_some _ cb es h hes]
      simp [openUrls, List.filterMap_append, buildStartUrl, setAccessToken, hauth, jsStr]

/-- Witness for C8: the `setAccessToken`/`start` round trip on a fresh
session and the bare URL when authentication is not required. -/
theorem C8_witness :
    openUrls (start (setAccessToken (mkWorld (mkSession "1.0.0" none)) "tokX") (some 7)).trace
      = [] ++ ["https://events.ownstone.org/sse" ++ "?accessToken=" ++ "tokX"
          ++ "&projectName=" ++ jsStr (mkSession "1.0.0" none).projectName]
    ∧ openUrls (start (mkWorld (mkSession "1.0.0"
        (some ⟨none, none, none, none, none, some false⟩))) (some 7)).trace
      = [] ++ ["https://events.ownstone.org/sse"] :=
  ⟨(C8_start_url (mkWorld (mkSession "1.0.0" none)) (some 7) "tokX").2.2 rfl,
   (C8_start_url (mkWorld (mkSession "1.0.0"
      (some ⟨none, none, none, none, none, some false⟩))) (some 7) "tokX").2.1 rfl⟩

/-! ### Concrete scenario worlds shared by the witnesses -/

/-- A fresh session constructed with `requireAuthentication = false` (all
other options omitted), wrapped in an initial world. -/
def noAuthWorld : World :=
  mkWorld (mkSession "1.0.0" (some ⟨none, none, none, none, none, some false⟩))

/-- `noAuthWorld` after a caller's `start(7)`: one open transport, id `0`. -/
def startedWorld : World := run noAuthWorld [Ev.extStart 7]

/-- A server-pushed token-expiry control event. -/
def tokenExpiredMsg : ParsedMessage :=
  { type := some "system", subType := some "TOKEN_EXPIRED", code := some 401, message := none }

/-- Claim C4: on a non-empty payload the message listener delivers the parsed
event to the callback first and invokes the token-refresh path afterwards,
exactly for events of shape `system`/401/`TOKEN_EXPIRED`-or-
`INVALID_ACCESS_TOKEN`; empty payloads and non-matching events never reach
the token-refresh path. -/
theorem C4_message_listener (w : World) (es : EventSourceHandle) (m : ParsedMessage)
    (hes : w.s.eventSource = some es) :
    (triggersTokenRefresh m = true →
      ∃ tl, (onMessage w es.id (some m)).trace
        = w.trace ++ [Act.deliver m, Act.retryRefreshInvoked] ++ tl)
    ∧ (triggersTokenRefresh m = false →
      (onMessage w es.id (some m)).trace = w.trace ++ [Act.deliver m]
      ∧ (onMessage w es.id (some m)).refreshChain = w.refreshChain)
    ∧ (onMessage w es.id none).trace = w.trace
    ∧ (triggersTokenRefresh m = true ↔
      (m.type = some "system" ∧ m.code = some 401 ∧
        (m.subType = some "TOKEN_EXPIRED" ∨ m.subType = some "INVALID_ACCESS_TOKEN"))) := by
  have hiff : triggersTokenRefresh m = true ↔
      (m.type = some "system" ∧ m.code = some 401 ∧
        (m.subType = some "TOKEN_EXPIRED" ∨ m.subType = some "INVALID_ACCESS_TOKEN")) := by
    simp only [triggersTokenRefresh, Bool.or_eq_true, Bool.and_eq_true, beq_iff_eq]
    tauto
  refine ⟨?_, ?_, ?_, hiff⟩
  · intro htr
    rcases hiff.mp htr with ⟨h1, h2, h3⟩
    unfold onMessage
    rw [hes]
    dsimp only
    rw [if_pos rfl]
    rcases h3 with h3 | h3
    · have hInv : ¬(m.type = some "system" ∧ m.code = some 401 ∧
          m.subType = some "INVALID_ACCESS_TOKEN") :=
        fun hc => absurd (h3.symm.trans hc.2.2) (by decide)
      rw [if_neg hInv, if_pos ⟨h1, h2, h3⟩]
      rcases retry_trace_prefix { messageReceived w with
        trace := (messageReceived w).trace ++ [Act.deliver m] } with ⟨tl, htl⟩
      refine ⟨tl, ?_⟩
      rw [htl]
      simp [messageReceived]
    · have hTE : ¬(m.type = some "system" ∧ m.code = some 401 ∧
          m.subType = some "TOKEN_EXPIRED") :=
        fun hc => absurd (h3.symm.trans hc.2.2) (by decide)
      rw [if_pos ⟨h1, h2, h3⟩, if_neg hTE]
      rcases retry_trace_prefix { messageReceived w with
        trace := (messageReceived w).trace ++ [Act.deliver m] } with ⟨tl, htl⟩
      refine ⟨tl, ?_⟩
      rw [htl]
      simp [messageReceived]
  · intro htr
    have hnot : ¬(m.type = some "system" ∧ m.code = some 401 ∧
        (m.subType = some "TOKEN_EXPIRED" ∨ m.subType = some "INVALID_ACCESS_TOKEN")) := by
      intro hc
      rw [hiff.mpr hc] at htr
      exact absurd htr (by decide)
    unfold onMessage
    rw [hes]
    dsimp only
    rw [if_pos rfl]
    rw [if_neg (fun hc => hnot ⟨hc.1, hc.2.1, Or.inr hc.2.2⟩),
        if_neg (fun hc => hnot ⟨hc.1, hc.2.1, Or.inl hc.2.2⟩)]
    exact ⟨by simp [messageReceived], rfl⟩
  · unfold onMessage
    rw [hes]
    dsimp only
    rw [if_pos rfl]
    rfl

/-- Witness for C4: a `TOKEN_EXPIRED` event on a live connection is delivered
then triggers the refresh path; a plain event is delivered and triggers
nothing. -/
theorem C4_witness :
    (∃ tl, (onMessage startedWorld 0 (some tokenExpiredMsg)).trace
      = startedWorld.trace ++ [Act.deliver tokenExpiredMsg, Act.retryRefreshInvoked] ++ tl)
    ∧ ((onMessage startedWorld 0 (some ⟨some "ping", none, none, none⟩)).trace
        = startedWorld.trace ++ [Act.deliver ⟨some "ping", none, none, none⟩]
      ∧ (onMessage startedWorld 0 (some ⟨some "ping", none, none, none⟩)).refreshChain
        = startedWorld.refreshChain) :=
  ⟨(C4_message_listener startedWorld ⟨0, 0⟩ tokenExpiredMsg (by decide)).1 (by decide),
   (C4_message_listener startedWorld ⟨0, 0⟩ ⟨some "ping", none, none, none⟩ (by decide)).2.1
      (by decide)⟩

/-- A session that logged in with user credentials (`loginHashed`'s
synchronous prefix records them) and holds the token `"tok0"`. -/
def authedWorld : World :=
  run (mkWorld (mkSession "1.0.0" none))
    [Ev.extSetAccessToken "tok0", Ev.extLoginHashed "a@b.com" "hash"]

/-- `authedWorld` after `start(7)`, a successful open, a server-pushed
`TOKEN_EXPIRED` event (which starts the token-refresh chain), and then
`stop()` — with the replayed login still in flight. -/
def stoppedWorld : World :=
  run authedWorld
    [Ev.extStart 7, Ev.esOpen 0, Ev.esMessage 0 (some tokenExpiredMsg), Ev.extStop]

/-- `authedWorld` after `start(7)`, open, `TOKEN_EXPIRED`, and a *failed*
replayed login. -/
def refreshFailWorld : World :=
  run authedWorld
    [Ev.extStart 7, Ev.esOpen 0, Ev.esMessage 0 (some tokenExpiredMsg),
     Ev.resolveRefreshLogin false ""]

/-- An unauthenticated session after `start(9)`, open, and bare ping
messages at 10 s and 20 s, followed by silence: the event loop then runs
timers only (59 liveness polls, then the heartbeat deadline). -/
def silentWorld : World :=
  runSilent 100 (run noAuthWorld
    [Ev.extStart 9, Ev.esOpen 0, Ev.advance 10000, Ev.esMessage 0 none,
     Ev.advance 20000, Ev.esMessage 0 none])

set_option maxRecDepth 10000

/-- Claim C1: in every reachable state, under every interleaving of external
`start` calls and internally triggered restarts, at most one transport is
live at any point of the trace (`liveSteps` only accepts a trace whose
`openNew` actions happen with zero live transports), and the trace ends with
exactly as many live transports as the handle field shows; moreover `start`
on a non-null handle detaches the three listeners, closes the old transport
and nulls the handle before constructing the new one, as the exact trace it
emits shows. -/
theorem C1_single_connection :
    (∀ (s0 : Session), s0.eventSource = none → ∀ evs : List Ev,
      liveSteps 0 (run (mkWorld s0) evs).trace = some (esInd (run (mkWorld s0) evs))
      ∧ esInd (run (mkWorld s0) evs) ≤ 1)
    ∧ (∀ (w : World) (cb : Option Nat) (es : EventSourceHandle),
      w.s.eventSource = some es →
      ¬(w.s.accessToken = none ∧ w.s.requireAuthentication = true) →
      (start w cb).trace = w.trace ++
        [Act.removeListener es.id ListenerKind.openL,
         Act.removeListener es.id ListenerKind.messageL,
         Act.removeListener es.id ListenerKind.errorL,
         Act.closeES es.id,
         Act.nullHandle,
         Act.openNew w.nextId (buildStartUrl w.s)]) := by
  constructor
  · intro s0 hs evs
    have h := invAll_run (invAll_mkWorld s0 hs) evs
    refine ⟨h.1, ?_⟩
    unfold esInd
    split
    · exact Nat.le_refl 1
    · exact Nat.zero_le 1
  · intro w cb es hes hth
    rw [start_opens_some w cb es hth hes]

/-- Witness for C1: a concrete interleaving (start, open, expiry event,
restart via a second start) keeps the trace single-connection, and a `start`
on the live connection of `startedWorld` emits teardown before `openNew`. -/
theorem C1_witness :
    (liveSteps 0 (run (mkWorld (mkSession "1.0.0" none))
        [Ev.extSetAccessToken "tok0", Ev.extStart 7, Ev.esOpen 0, Ev.extStart 8]).trace
      = some (esInd (run (mkWorld (mkSession "1.0.0" none))
        [Ev.extSetAccessToken "tok0", Ev.extStart 7, Ev.esOpen 0, Ev.extStart 8]))
      ∧ esInd (run (mkWorld (mkSession "1.0.0" none))
        [Ev.extSetAccessToken "tok0", Ev.extStart 7, Ev.esOpen 0, Ev.extStart 8]) ≤ 1)
    ∧ (start startedWorld (some 8)).trace = startedWorld.trace ++
        [Act.removeListener 0 ListenerKind.openL,
         Act.removeListener 0 ListenerKind.messageL,
         Act.removeListener 0 ListenerKind.errorL,
         Act.closeES 0,
         Act.nullHandle,
         Act.openNew startedWorld.nextId (buildStartUrl startedWorld.s)] :=
  ⟨C1_single_connection.1 (mkSession "1.0.0" none) rfl
      [Ev.extSetAccessToken "tok0", Ev.extStart 7, Ev.esOpen 0, Ev.extStart 8],
   C1_single_connection.2 startedWorld (some 8) ⟨0, 0⟩ (by decide) (by decide)⟩

/-- Counterexample to C2 as stated: `stoppedWorld` has returned from
`stop()` (handle null, auto-reconnect off, every pending timer cancelled),
yet without any further `start` call — only the in-flight replayed login
resolving and the refresh chain's private 2-second delay firing — the
session opens a fresh connection (transport id 5). -/
theorem C2_counterexample :
    stoppedWorld.s.eventSource = none
    ∧ stoppedWorld.s.autoreconnect = false
    ∧ stoppedWorld.pending = []
    ∧ countOpenNew stoppedWorld.trace = 1
    ∧ (run stoppedWorld [Ev.resolveRefreshLogin true "tok1", Ev.timer 4]).s.eventSource
        = some ⟨5, 0⟩
    ∧ countOpenNew (run stoppedWorld [Ev.resolveRefreshLogin true "tok1", Ev.timer 4]).trace
        = 2 := by
  decide

/-- Claim C2 as amended: after `stop()` the heartbeat-deadline,
liveness-poll and reconnect-delay timers are all cancelled, the handle is
null and auto-reconnect is off; and — provided no token-refresh recovery is
in flight when `stop` is called (refresh chain idle, no refresh-delay timer
pending) — nothing is pending afterwards and no further connection is ever
opened unless the caller invokes `start` again.  (When a token-refresh
recovery is in flight, its continuation still invokes `start` and opens a
connection: see the counterexample.) -/
theorem C2_stop_guarantees (w : World) (hw : InvAll w) :
    ((stop w).s.eventSource = none
    ∧ (stop w).s.autoreconnect = false
    ∧ tasksOfKind TaskKind.heartbeat (stop w).pending = []
    ∧ tasksOfKind TaskKind.checker (stop w).pending = []
    ∧ tasksOfKind TaskKind.reconnect (stop w).pending = [])
    ∧ (w.refreshChain = none → tasksOfKind TaskKind.refreshDelay w.pending = [] →
      (stop w).pending = []
      ∧ ∀ evs : List Ev, (∀ e ∈ evs, noStartCall e = true) →
        (run (stop w) evs).s.eventSource = none
        ∧ countOpenNew (run (stop w) evs).trace = countOpenNew (stop w).trace) := by
  obtain ⟨i1, i2, i3, i4, i5, i6⟩ := hw
  obtain ⟨hb0, chk0, rec0⟩ := cleared_kinds i2 i4 i5
  have hpend : (stop w).pending = clearT w.s.pingTimeout
      (clearT w.s.reconnectTimeout (clearT w.s.checkerInterval w.pending)) := by
    unfold stop
    rw [closeEventSource_pending]
  have har : (stop w).s.autoreconnect = false := by
    unfold stop
    exact (closeEventSource_fields _).1
  constructor
  · refine ⟨closeEventSource_es _, har, ?_, ?_, ?_⟩
    · rw [hpend]
      exact hb0
    · rw [hpend]
      exact chk0
    · rw [hpend]
      exact rec0
  · intro hch hrd
    have hsp : (stop w).pending = [] := by
      rw [hpend, List.eq_nil_iff_forall_not_mem]
      intro t ht
      have htw : t ∈ w.pending := mem_clearT (mem_clearT (mem_clearT ht))
      cases hk : t.kind with
      | heartbeat => exact absurd (mem_tasksOfKind.mpr ⟨ht, hk⟩) (by simp [hb0])
      | checker => exact absurd (mem_tasksOfKind.mpr ⟨ht, hk⟩) (by simp [chk0])
      | reconnect => exact absurd (mem_tasksOfKind.mpr ⟨ht, hk⟩) (by simp [rec0])
      | refreshDelay => exact absurd (mem_tasksOfKind.mpr ⟨htw, hk⟩) (by simp [hrd])
    have hchs : (stop w).refreshChain = none := by
      unfold stop
      rw [(closeEventSource_fields _).2]
      exact hch
    refine ⟨hsp, fun evs he => ?_⟩
    obtain ⟨r1, _, _, _, r5⟩ := dead_run (closeEventSource_es _) hsp hchs har evs he
    exact ⟨r1, r5⟩

/-- Witness for C2 (amended): stopping the live session of `startedWorld`
(no refresh in flight) cancels everything, and subsequent internal events
(a transport error for the closed source, a stray timer) open nothing. -/
theorem C2_witness :
    ((stop startedWorld).s.eventSource = none
    ∧ (stop startedWorld).s.autoreconnect = false
    ∧ tasksOfKind TaskKind.heartbeat (stop startedWorld).pending = []
    ∧ tasksOfKind TaskKind.checker (stop startedWorld).pending = []
    ∧ tasksOfKind TaskKind.reconnect (stop startedWorld).pending = [])
    ∧ (stop startedWorld).pending = []
    ∧ ((run (stop startedWorld) [Ev.esError 0, Ev.timer 3]).s.eventSource = none
      ∧ countOpenNew (run (stop startedWorld) [Ev.esError 0, Ev.timer 3]).trace
          = countOpenNew (stop startedWorld).trace) :=
  ⟨(C2_stop_guarantees startedWorld (by decide)).1,
   ((C2_stop_guarantees startedWorld (by decide)).2 (by decide) (by decide)).1,
   ((C2_stop_guarantees startedWorld (by decide)).2 (by decide) (by decide)).2
      [Ev.esError 0, Ev.timer 3] (by decide)⟩

/-- Claim C3 (code bug in the source): with auto-reconnect enabled and a
credential record present, a failed `retryLogin()` delivers *no*
`COULD_NOT_REFRESH_TOKEN` terminal event at all — the `catch` block that
would synthesize it only sees synchronous exceptions while `retryLogin` is
`async`, so the rejection is unhandled.  The run below evaluates the model at
the failing input: the conditions of the claim hold (flag true, record
present, refresh chain started), the login fails, and the terminal-event
count is `0` instead of the claimed `1` (no restart happens either — the
chain simply dies). -/
theorem C3_refresh_failure_drops_terminal_event :
    (run authedWorld [Ev.extStart 7, Ev.esOpen 0]).s.autoreconnect = true
    ∧ (run authedWorld [Ev.extStart 7, Ev.esOpen 0]).s.cachedLoginData.isSome = true
    ∧ (run authedWorld [Ev.extStart 7, Ev.esOpen 0,
        Ev.esMessage 0 (some tokenExpiredMsg)]).refreshChain
        = some RefreshStage.awaitingLogin
    ∧ countTerminalDeliver refreshFailWorld.trace = 0
    ∧ countDeliver tokenExpiredMsg refreshFailWorld.trace = 1
    ∧ refreshFailWorld.refreshChain = none
    ∧ refreshFailWorld.s.eventSource = none
    ∧ refreshFailWorld.pending = []
    ∧ countOpenNew refreshFailWorld.trace = 1 := by
  decide

/-- Messages that do not carry the token-expiry signal: bare pings or
payload events the refresh path ignores. -/
def nonTrigger : Option ParsedMessage → Bool
  | none => true
  | some m => !(triggersTokenRefresh m)

/-- A timed schedule of inbound messages: each entry advances the clock to
its time and delivers its (possibly empty) payload to the transport. -/
def msgEvents (esId : Nat) : List (Nat × Option ParsedMessage) → List Ev
  | [] => []
  | (t, d) :: rest => Ev.advance t :: Ev.esMessage esId d :: msgEvents esId rest

/-- The session state while an opened connection is receiving messages:
the callback is stored, `start` would not throw, the transport is open
(readyState 1), and exactly two timers are pending — the single-shot
heartbeat deadline `hb` and the liveness poll `c`, each held by its session
field. -/
def silencePhase (w : World) (cb : Nat) (es : EventSourceHandle) (hb c : Task) : Prop :=
  w.s.eventCallback = some cb
  ∧ ¬(w.s.accessToken = none ∧ w.s.requireAuthentication = true)
  ∧ w.s.eventSource = some es
  ∧ es.readyState = 1
  ∧ hb.kind = TaskKind.heartbeat
  ∧ c.kind = TaskKind.checker
  ∧ hb.id ≠ c.id
  ∧ hb.id < w.nextId
  ∧ c.id < w.nextId
  ∧ w.s.pingTimeout = some hb.id
  ∧ w.s.checkerInterval = some c.id
  ∧ (w.pending = [hb, c] ∨ w.pending = [c, hb])

lemma runSilent_nil {w : World} (hp : w.pending = []) : ∀ f, runSilent f w = w := by
  intro f
  cases f with
  | zero => rfl
  | succ n =>
    show (match nextTask w.pending with
      | none => w
      | some t => runSilent n (fireTimer w t.id)) = w
    rw [hp]
    rfl

lemma nextTask_pair (a b : Task) :
    nextTask [a, b] = if earlier b a then some b else some a := rfl

lemma earlier_asymm {a b : Task} (h : earlier a b = true) : earlier b a = false := by
  simp only [earlier, Bool.or_eq_true, Bool.and_eq_true, decide_eq_true_eq, beq_iff_eq] at h
  simp only [earlier, Bool.or_eq_false_iff, Bool.and_eq_false_iff]
  constructor
  · simp only [decide_eq_false_iff_not]
    omega
  · rcases h with h | ⟨h1, h2⟩
    · left
      simp only [beq_eq_false_iff_ne, ne_eq]
      omega
    · right
      simp only [decide_eq_false_iff_not]
      omega

lemma earlier_total {a b : Task} (hne : a.id ≠ b.id) :
    earlier a b = true ∨ earlier b a = true := by
  simp only [earlier, Bool.or_eq_true, Bool.and_eq_true, decide_eq_true_eq, beq_iff_eq]
  omega



lemma nextTask_of_phase {w : World} {cb : Nat} {es : EventSourceHandle} {hb c : Task}
    (h : silencePhase w cb es hb c) :
    (earlier c hb = true → nextTask w.pending = some c)
    ∧ (earlier c hb = false → nextTask w.pending = some hb) := by
  obtain ⟨_, _, _, _, _, _, hne, _, _, _, _, hpend⟩ := h
  constructor
  · intro hcu
    rcases hpend with hp | hp
    · rw [hp, nextTask_pair, if_pos hcu]
    · rw [hp, nextTask_pair, if_neg (by simp [earlier_asymm hcu])]
  · intro hcu
    have hhb : earlier hb c = true := by
      rcases earlier_total hne with ht | ht
      · exact ht
      · exact absurd ht (by simp [hcu])
    rcases hpend with hp | hp
    · rw [hp, nextTask_pair, if_neg (by simp [hcu])]
    · rw [hp, nextTask_pair, if_pos hhb]

lemma fire_checker {w : World} {cb : Nat} {es : EventSourceHandle} {hb c : Task}
    (h : silencePhase w cb es hb c) :
    fireTimer w c.id = { w with
      now := c.fireAt
      pending := [hb, ⟨c.id, c.fireAt + 1000, TaskKind.checker⟩] }
    ∧ silencePhase { w with
      now := c.fireAt
      pending := [hb, ⟨c.id, c.fireAt + 1000, TaskKind.checker⟩] } cb es hb
      ⟨c.id, c.fireAt + 1000, TaskKind.checker⟩ := by
  obtain ⟨h1, h2, h3, h4, h5, h6, hne, hfh, hfc, h7, h8, hpend⟩ := h
  have hbeq : (hb.id == c.id) = false := beq_eq_false_iff_ne.mpr hne
  have hfind : w.pending.find? (fun t => t.id == c.id) = some c := by
    rcases hpend with hp | hp
    · rw [hp]
      rw [List.find?_cons_of_neg _ (by simp [hbeq]), List.find?_cons_of_pos _ (by simp)]
    · rw [hp]
      rw [List.find?_cons_of_pos _ (by simp)]
  have hfilter : w.pending.filter (fun u => u.id != c.id) = [hb] := by
    rcases hpend with hp | hp <;>
      simp [hp, List.filter, hbeq, bne]
  have heq : fireTimer w c.id = { w with
      now := c.fireAt
      pending := [hb, ⟨c.id, c.fireAt + 1000, TaskKind.checker⟩] } := by
    unfold fireTimer
    rw [hfind]
    dsimp only
    rw [hfilter]
    rw [if_pos h6]
    unfold runTask
    rw [h6]
    dsimp only
    rw [h3]
    dsimp only
    rw [if_neg (by rw [h4]; exact (by decide))]
    rfl
  refine ⟨heq, h1, h2, h3, h4, h5, rfl, hne, hfh, hfc, h7, h8, Or.inl rfl⟩



lemma fire_heartbeat {w : World} {cb : Nat} {es : EventSourceHandle} {hb c : Task}
    (h : silencePhase w cb es hb c) :
    (fireTimer w hb.id).trace = w.trace ++
      [Act.heartbeatFired cb,
       Act.removeListener es.id ListenerKind.openL,
       Act.removeListener es.id ListenerKind.messageL,
       Act.removeListener es.id ListenerKind.errorL,
       Act.closeES es.id,
       Act.nullHandle,
       Act.openNew w.nextId (buildStartUrl w.s)]
    ∧ (fireTimer w hb.id).pending = []
    ∧ (fireTimer w hb.id).s.eventSource = some ⟨w.nextId, 0⟩ := by
  obtain ⟨h1, h2, h3, h4, h5, h6, hne, hfh, hfc, h7, h8, hpend⟩ := h
  have hbeq : (c.id == hb.id) = false := beq_eq_false_iff_ne.mpr (Ne.symm hne)
  have hfind : w.pending.find? (fun t => t.id == hb.id) = some hb := by
    rcases hpend with hp | hp
    · rw [hp]
      rw [List.find?_cons_of_pos _ (by simp)]
    · rw [hp]
      rw [List.find?_cons_of_neg _ (by simp [hbeq]), List.find?_cons_of_pos _ (by simp)]
  have hfilter : w.pending.filter (fun u => u.id != hb.id) = [c] := by
    rcases hpend with hp | hp <;>
      simp [hp, List.filter, hbeq, bne]
  have heq : fireTimer w hb.id = start { w with
      now := hb.fireAt
      pending := [c]
      trace := w.trace ++ [Act.heartbeatFired cb] } (some cb) := by
    unfold fireTimer
    rw [hfind]
    dsimp only
    rw [hfilter]
    rw [if_neg (by rw [h5]; exact (by decide))]
    unfold runTask
    rw [h5]
    dsimp only
    rw [h1]
  rw [heq]
  rw [start_opens_some { w with
      now := hb.fireAt
      pending := [c]
      trace := w.trace ++ [Act.heartbeatFired cb] } (some cb) es (by exact h2) (by exact h3)]
  refine ⟨by simp, ?_, rfl⟩
  show clearT w.s.pingTimeout (clearT w.s.reconnectTimeout (clearT w.s.checkerInterval
    (clearT w.s.pingTimeout (clearT w.s.reconnectTimeout (clearT w.s.checkerInterval [c]))))) = []
  rw [h8]
  have hc0 : clearT (some c.id) [c] = [] := by
    simp [clearT, List.filter]
  rw [hc0]
  simp [clearT_nil]



lemma runSilent_succ (f : Nat) (w : World) :
    runSilent (f + 1) w = match nextTask w.pending with
      | none => w
      | some t => runSilent f (fireTimer w t.id) := rfl

lemma silence_hb_first {w : World} {cb : Nat} {es : EventSourceHandle} {hb c : Task}
    (h : silencePhase w cb es hb c) (hfirst : earlier c hb = false) :
    ∀ fuel, 1 ≤ fuel →
      (runSilent fuel w).trace = w.trace ++
        [Act.heartbeatFired cb,
         Act.removeListener es.id ListenerKind.openL,
         Act.removeListener es.id ListenerKind.messageL,
         Act.removeListener es.id ListenerKind.errorL,
         Act.closeES es.id,
         Act.nullHandle,
         Act.openNew w.nextId (buildStartUrl w.s)]
      ∧ (runSilent fuel w).pending = []
      ∧ (runSilent fuel w).s.eventSource = some ⟨w.nextId, 0⟩ := by
  intro fuel hf
  obtain ⟨f, rfl⟩ : ∃ f, fuel = f + 1 := ⟨fuel - 1, by omega⟩
  rw [runSilent_succ, (nextTask_of_phase h).2 hfirst]
  dsimp only
  obtain ⟨ht, hp, hes⟩ := fire_heartbeat h
  rw [runSilent_nil hp f]
  exact ⟨ht, hp, hes⟩

/-- During silence the event loop, run long enough, fires the heartbeat
deadline exactly once: the only trace it adds is the heartbeat firing with
the stored callback followed by the restart's teardown-and-open, after which
nothing is pending. -/
lemma silence_run (M : Nat) :
    ∀ (w : World) (cb : Nat) (es : EventSourceHandle) (hb c : Task),
    silencePhase w cb es hb c → hb.fireAt + 1 - c.fireAt ≤ M →
    ∃ n, ∀ fuel, n ≤ fuel →
      (runSilent fuel w).trace = w.trace ++
        [Act.heartbeatFired cb,
         Act.removeListener es.id ListenerKind.openL,
         Act.removeListener es.id ListenerKind.messageL,
         Act.removeListener es.id ListenerKind.errorL,
         Act.closeES es.id,
         Act.nullHandle,
         Act.openNew w.nextId (buildStartUrl w.s)]
      ∧ (runSilent fuel w).pending = []
      ∧ (runSilent fuel w).s.eventSource = some ⟨w.nextId, 0⟩ := by
  induction M with
  | zero =>
    intro w cb es hb c h hm
    have hfirst : earlier c hb = false := by
      simp only [earlier, Bool.or_eq_false_iff, Bool.and_eq_false_iff,
        decide_eq_false_iff_not, beq_eq_false_iff_ne, ne_eq]
      constructor
      · omega
      · left
        omega
    exact ⟨1, silence_hb_first h hfirst⟩
  | succ M ih =>
    intro w cb es hb c h hm
    by_cases hcu : earlier c hb = true
    · obtain ⟨heq, hph⟩ := fire_checker h
      have hcle : c.fireAt ≤ hb.fireAt := by
        simp only [earlier, Bool.or_eq_true, Bool.and_eq_true, decide_eq_true_eq,
          beq_iff_eq] at hcu
        omega
      obtain ⟨n, hn⟩ := ih _ cb es hb _ hph (by simp only; omega)
      refine ⟨n + 1, fun fuel hf => ?_⟩
      obtain ⟨f, rfl⟩ : ∃ f, fuel = f + 1 := ⟨fuel - 1, by omega⟩
      rw [runSilent_succ, (nextTask_of_phase h).1 hcu]
      dsimp only
      rw [heq]
      exact hn f (by omega)
    · have hfirst : earlier c hb = false := by
        revert hcu
        cases earlier c hb <;> simp
      exact ⟨1, silence_hb_first h hfirst⟩



lemma start_facts (w0 : World) (cb : Option Nat)
    (hnt : ¬(w0.s.accessToken = none ∧ w0.s.requireAuthentication = true)) :
    (start w0 cb).s.eventSource = some ⟨w0.nextId, 0⟩
    ∧ (start w0 cb).s.eventCallback = cb
    ∧ (start w0 cb).s.accessToken = w0.s.accessToken
    ∧ (start w0 cb).s.requireAuthentication = w0.s.requireAuthentication
    ∧ (start w0 cb).nextId = w0.nextId + 1
    ∧ (start w0 cb).now = w0.now := by
  cases hes : w0.s.eventSource with
  | none =>
    rw [start_opens_none w0 cb hnt hes]
    exact ⟨rfl, rfl, rfl, rfl, rfl, rfl⟩
  | some es =>
    rw [start_opens_some w0 cb es hnt hes]
    exact ⟨rfl, rfl, rfl, rfl, rfl, rfl⟩

lemma start_pending_empty {w0 : World} (hw : InvAll w0)
    (hrd : tasksOfKind TaskKind.refreshDelay w0.pending = []) (cb : Option Nat)
    (hnt : ¬(w0.s.accessToken = none ∧ w0.s.requireAuthentication = true)) :
    (start w0 cb).pending = [] := by
  obtain ⟨i1, i2, i3, i4, i5, i6⟩ := hw
  obtain ⟨hb0, chk0, rec0⟩ := cleared_kinds i2 i4 i5
  rw [List.eq_nil_iff_forall_not_mem]
  intro t ht
  have hmem : t ∈ clearT w0.s.pingTimeout
      (clearT w0.s.reconnectTimeout (clearT w0.s.checkerInterval w0.pending))
      ∧ t ∈ w0.pending := by
    cases hes : w0.s.eventSource with
    | none =>
      rw [start_opens_none w0 cb hnt hes] at ht
      exact ⟨ht, mem_clearT (mem_clearT (mem_clearT ht))⟩
    | some es =>
      rw [start_opens_some w0 cb es hnt hes] at ht
      have ht2 := mem_clearT (mem_clearT (mem_clearT ht))
      exact ⟨ht2, mem_clearT (mem_clearT (mem_clearT ht2))⟩
  cases hk : t.kind with
  | heartbeat => exact absurd (mem_tasksOfKind.mpr ⟨hmem.1, hk⟩) (by simp [hb0])
  | checker => exact absurd (mem_tasksOfKind.mpr ⟨hmem.1, hk⟩) (by simp [chk0])
  | reconnect => exact absurd (mem_tasksOfKind.mpr ⟨hmem.1, hk⟩) (by simp [rec0])
  | refreshDelay => exact absurd (mem_tasksOfKind.mpr ⟨hmem.2, hk⟩) (by simp [hrd])

lemma onOpen_fresh {P : World} {n : Nat} (hes : P.s.eventSource = some ⟨n, 0⟩)
    (hp : P.pending = []) :
    onOpen P n = { P with
      s := { P.s with
        eventSource := some ⟨n, 1⟩
        pingTimeout := some P.nextId
        checkerInterval := some (P.nextId + 1) }
      pending := [⟨P.nextId, P.now + 40000, TaskKind.heartbeat⟩,
                  ⟨P.nextId + 1, P.now + 1000, TaskKind.checker⟩]
      nextId := P.nextId + 2 } := by
  unfold onOpen
  rw [hes]
  dsimp only
  rw [if_pos ⟨rfl, rfl⟩]
  rw [messageReceived_eq]
  simp [hp, clearT_nil]



lemma phase_after_open {w0 : World} (cb : Nat) (hw : InvAll w0)
    (hrd : tasksOfKind TaskKind.refreshDelay w0.pending = [])
    (hnt : ¬(w0.s.accessToken = none ∧ w0.s.requireAuthentication = true)) :
    silencePhase (onOpen (start w0 (some cb)) w0.nextId) cb
      ⟨w0.nextId, 1⟩
      ⟨w0.nextId + 1, w0.now + 40000, TaskKind.heartbeat⟩
      ⟨w0.nextId + 2, w0.now + 1000, TaskKind.checker⟩ := by
  obtain ⟨hes0, hcb0, hat0, hra0, hni0, hnow0⟩ := start_facts w0 (some cb) hnt
  have hp0 : (start w0 (some cb)).pending = [] := start_pending_empty hw hrd (some cb) hnt
  rw [onOpen_fresh hes0 hp0]
  refine ⟨?_, ?_, rfl, rfl, rfl, rfl, ?_, ?_, ?_, ?_, ?_, Or.inl ?_⟩
  · show (start w0 (some cb)).s.eventCallback = some cb
    exact hcb0
  · show ¬((start w0 (some cb)).s.accessToken = none
      ∧ (start w0 (some cb)).s.requireAuthentication = true)
    rw [hat0, hra0]
    exact hnt
  · show w0.nextId + 1 ≠ w0.nextId + 2
    omega
  · show w0.nextId + 1 < (start w0 (some cb)).nextId + 2
    rw [hni0]
    omega
  · show w0.nextId + 2 < (start w0 (some cb)).nextId + 2
    rw [hni0]
    omega
  · show some (start w0 (some cb)).nextId = some (w0.nextId + 1)
    rw [hni0]
  · show some ((start w0 (some cb)).nextId + 1) = some (w0.nextId + 2)
    rw [hni0]
  · show [(⟨(start w0 (some cb)).nextId, (start w0 (some cb)).now + 40000,
        TaskKind.heartbeat⟩ : Task),
      ⟨(start w0 (some cb)).nextId + 1, (start w0 (some cb)).now + 1000, TaskKind.checker⟩]
      = [⟨w0.nextId + 1, w0.now + 40000, TaskKind.heartbeat⟩,
         ⟨w0.nextId + 2, w0.now + 1000, TaskKind.checker⟩]
    rw [hni0, hnow0]

lemma phase_message {w : World} {cb : Nat} {es : EventSourceHandle} {hb c : Task}
    (h : silencePhase w cb es hb c) (d : Option ParsedMessage) (hd : nonTrigger d = true) :
    silencePhase (onMessage w es.id d) cb es
      ⟨w.nextId, w.now + 40000, TaskKind.heartbeat⟩ c := by
  obtain ⟨h1, h2, h3, h4, h5, h6, hne, hfh, hfc, h7, h8, hpend⟩ := h
  have hceq : (c.id == hb.id) = false := beq_eq_false_iff_ne.mpr (Ne.symm hne)
  have hclr : clearT w.s.pingTimeout w.pending = [c] := by
    rw [h7]
    rcases hpend with hp | hp <;>
      simp [hp, clearT, List.filter, hceq, bne]
  unfold onMessage
  rw [h3]
  dsimp only
  rw [if_pos rfl]
  cases d with
  | none =>
    dsimp only
    rw [messageReceived_eq, hclr]
    refine ⟨h1, h2, h3, h4, rfl, h6, ?_, ?_, ?_, rfl, h8, Or.inr rfl⟩
    · show w.nextId ≠ c.id
      omega
    · show w.nextId < w.nextId + 1
      omega
    · show c.id < w.nextId + 1
      omega
  | some m =>
    dsimp only
    have htf : triggersTokenRefresh m = false := by
      simpa [nonTrigger] using hd
    have hTE : ¬(m.type = some "system" ∧ m.code = some 401 ∧
        m.subType = some "TOKEN_EXPIRED") := by
      intro hc
      have htt : triggersTokenRefresh m = true := by
        simp [triggersTokenRefresh, hc.1, hc.2.1, hc.2.2]
      rw [htf] at htt
      exact absurd htt (by decide)
    have hIA : ¬(m.type = some "system" ∧ m.code = some 401 ∧
        m.subType = some "INVALID_ACCESS_TOKEN") := by
      intro hc
      have htt : triggersTokenRefresh m = true := by
        simp [triggersTokenRefresh, hc.1, hc.2.1, hc.2.2]
      rw [htf] at htt
      exact absurd htt (by decide)
    rw [if_neg hIA, if_neg hTE]
    rw [messageReceived_eq, hclr]
    refine ⟨h1, h2, h3, h4, rfl, h6, ?_, ?_, ?_, rfl, h8, Or.inr rfl⟩
    · show w.nextId ≠ c.id
      omega
    · show w.nextId < w.nextId + 1
      omega
    · show c.id < w.nextId + 1
      omega

lemma phase_run : ∀ (sched : List (Nat × Option ParsedMessage)) (w : World) (cb : Nat)
    (es : EventSourceHandle) (hb c : Task), silencePhase w cb es hb c →
    (∀ p ∈ sched, nonTrigger p.2 = true) →
    ∃ hb2 c2, silencePhase (run w (msgEvents es.id sched)) cb es hb2 c2 := by
  intro sched
  induction sched with
  | nil =>
    intro w cb es hb c h _
    exact ⟨hb, c, h⟩
  | cons p rest ih =>
    intro w cb es hb c h hs
    have hadv : silencePhase { w with now := p.1 } cb es hb c := by
      obtain ⟨h1, h2, h3, h4, h5, h6, hne, hfh, hfc, h7, h8, hpend⟩ := h
      exact ⟨h1, h2, h3, h4, h5, h6, hne, hfh, hfc, h7, h8, hpend⟩
    have hmsg := phase_message hadv p.2 (hs p (List.mem_cons_self _ _))
    exact ih _ cb es _ _ hmsg (fun q hq => hs q (List.mem_cons_of_mem _ hq))



def messagePhaseWorld (w0 : World) (cb : Nat)
    (sched : List (Nat × Option ParsedMessage)) : World :=
  run (onOpen (start w0 (some cb)) w0.nextId) (msgEvents w0.nextId sched)

lemma silence_universal (w0 : World) (cb : Nat) (sched : List (Nat × Option ParsedMessage))
    (hw : InvAll w0) (hrd : tasksOfKind TaskKind.refreshDelay w0.pending = [])
    (hnt : ¬(w0.s.accessToken = none ∧ w0.s.requireAuthentication = true))
    (hs : ∀ p ∈ sched, nonTrigger p.2 = true) :
    ∃ n, ∀ fuel, n ≤ fuel →
      (∃ tl, (runSilent fuel (messagePhaseWorld w0 cb sched)).trace
        = (messagePhaseWorld w0 cb sched).trace ++ Act.heartbeatFired cb :: tl)
      ∧ countHeartbeatFired (runSilent fuel (messagePhaseWorld w0 cb sched)).trace
        = countHeartbeatFired (messagePhaseWorld w0 cb sched).trace + 1
      ∧ countOpenNew (runSilent fuel (messagePhaseWorld w0 cb sched)).trace
        = countOpenNew (messagePhaseWorld w0 cb sched).trace + 1
      ∧ (runSilent fuel (messagePhaseWorld w0 cb sched)).pending = [] := by
  have hph := phase_after_open cb hw hrd hnt
  obtain ⟨hb2, c2, hW⟩ := phase_run sched _ cb _ _ _ hph hs
  obtain ⟨n, hn⟩ := silence_run (hb2.fireAt + 1 - c2.fireAt) _ cb _ hb2 c2 hW (Nat.le_refl _)
  dsimp only at hn
  unfold messagePhaseWorld
  refine ⟨n, fun fuel hf => ?_⟩
  obtain ⟨ht, hp, _⟩ := hn fuel hf
  refine ⟨⟨_, ht⟩, ?_, ?_, hp⟩
  · rw [ht]
    unfold countHeartbeatFired
    rw [List.filter_append]
    simp
  · rw [ht]
    unfold countOpenNew
    rw [List.filter_append]
    simp

/-- Claim C5: at most one heartbeat-deadline timer is ever pending in any
reachable state; `_messageReceived` cancels the pending deadline and arms a
fresh single-shot one due in 40000 ms (and both the message listener — on
payload-bearing and bare messages alike — and the open listener do exactly
that); for *every* session, every timed schedule of received messages, and
every sufficiently long silence that follows, the deadline fires exactly
once — the silent run adds exactly one `heartbeatFired` with the stored
callback and exactly one `openNew` (the restart), after which nothing is
pending; and the concrete silence scenario instantiates this (messages at
10 s and 20 s, the deadline firing at 60 s past 59 liveness polls). -/
theorem C5_heartbeat_deadline :
    (∀ (s0 : Session), s0.eventSource = none → ∀ evs : List Ev,
      hbCount (run (mkWorld s0) evs).pending ≤ 1)
    ∧ (∀ w : World, linkedKind TaskKind.heartbeat w.s.pingTimeout w.pending →
      tasksOfKind TaskKind.heartbeat (messageReceived w).pending
        = [⟨w.nextId, w.now + 40000, TaskKind.heartbeat⟩]
      ∧ (messageReceived w).s.pingTimeout = some w.nextId)
    ∧ (∀ (w : World) (es : EventSourceHandle),
      linkedKind TaskKind.heartbeat w.s.pingTimeout w.pending →
      w.s.eventSource = some es →
      tasksOfKind TaskKind.heartbeat (onMessage w es.id none).pending
        = [⟨w.nextId, w.now + 40000, TaskKind.heartbeat⟩]
      ∧ (es.readyState = 0 →
        tasksOfKind TaskKind.heartbeat (onOpen w es.id).pending
          = [⟨w.nextId, w.now + 40000, TaskKind.heartbeat⟩]))
    ∧ (∀ (w0 : World) (cb : Nat) (sched : List (Nat × Option ParsedMessage)),
      InvAll w0 →
      tasksOfKind TaskKind.refreshDelay w0.pending = [] →
      ¬(w0.s.accessToken = none ∧ w0.s.requireAuthentication = true) →
      (∀ p ∈ sched, nonTrigger p.2 = true) →
      ∃ n, ∀ fuel, n ≤ fuel →
        (∃ tl, (runSilent fuel (messagePhaseWorld w0 cb sched)).trace
          = (messagePhaseWorld w0 cb sched).trace ++ Act.heartbeatFired cb :: tl)
        ∧ countHeartbeatFired (runSilent fuel (messagePhaseWorld w0 cb sched)).trace
          = countHeartbeatFired (messagePhaseWorld w0 cb sched).trace + 1
        ∧ countOpenNew (runSilent fuel (messagePhaseWorld w0 cb sched)).trace
          = countOpenNew (messagePhaseWorld w0 cb sched).trace + 1
        ∧ (runSilent fuel (messagePhaseWorld w0 cb sched)).pending = [])
    ∧ (countHeartbeatFired silentWorld.trace = 1
      ∧ Act.heartbeatFired 9 ∈ silentWorld.trace
      ∧ countOpenNew silentWorld.trace = 2
      ∧ silentWorld.pending = []) := by
  refine ⟨?_, ?_, ?_, silence_universal, by decide⟩
  · intro s0 hs evs
    exact (invAll_run (invAll_mkWorld s0 hs) evs).2.2.1
  · intro w h2
    exact ⟨hb_rearm h2, rfl⟩
  · intro w es h2 hes
    constructor
    · unfold onMessage
      rw [hes]
      dsimp only
      rw [if_pos rfl]
      exact hb_rearm h2
    · intro hrs
      unfold onOpen
      rw [hes]
      dsimp only
      rw [if_pos ⟨rfl, hrs⟩]
      show tasksOfKind _ ((messageReceived _).pending ++ _) = _
      rw [tasksOfKind_append]
      rw [hb_rearm (w := { w with s := { w.s with eventSource := some ⟨es.id, 1⟩ } }) h2]
      simp [tasksOfKind]

/-- Witness for C5: the ≤ 1 bound on a concrete run, the re-arming facts
at `startedWorld` (whose transport, id 0, has not opened yet), and the
universal silence result instantiated at a concrete session and schedule. -/
theorem C5_witness :
    hbCount (run (mkWorld (mkSession "1.0.0" none))
      [Ev.extSetAccessToken "tok0", Ev.extStart 7, Ev.esOpen 0,
       Ev.esMessage 0 none]).pending ≤ 1
    ∧ (tasksOfKind TaskKind.heartbeat (messageReceived startedWorld).pending
        = [⟨startedWorld.nextId, startedWorld.now + 40000, TaskKind.heartbeat⟩]
      ∧ (messageReceived startedWorld).s.pingTimeout = some startedWorld.nextId)
    ∧ (tasksOfKind TaskKind.heartbeat (onMessage startedWorld 0 none).pending
        = [⟨startedWorld.nextId, startedWorld.now + 40000, TaskKind.heartbeat⟩]
      ∧ tasksOfKind TaskKind.heartbeat (onOpen startedWorld 0).pending
        = [⟨startedWorld.nextId, startedWorld.now + 40000, TaskKind.heartbeat⟩])
    ∧ (∃ n, ∀ fuel, n ≤ fuel →
        (∃ tl, (runSilent fuel (messagePhaseWorld noAuthWorld 9 [(10000, none), (20000, none)])).trace
          = (messagePhaseWorld noAuthWorld 9 [(10000, none), (20000, none)]).trace
              ++ Act.heartbeatFired 9 :: tl)
        ∧ countHeartbeatFired
            (runSilent fuel (messagePhaseWorld noAuthWorld 9 [(10000, none), (20000, none)])).trace
          = countHeartbeatFired
            (messagePhaseWorld noAuthWorld 9 [(10000, none), (20000, none)]).trace + 1
        ∧ countOpenNew
            (runSilent fuel (messagePhaseWorld noAuthWorld 9 [(10000, none), (20000, none)])).trace
          = countOpenNew
            (messagePhaseWorld noAuthWorld 9 [(10000, none), (20000, none)]).trace + 1
        ∧ (runSilent fuel (messagePhaseWorld noAuthWorld 9 [(10000, none), (20000, none)])).pending
          = []) :=
  ⟨C5_heartbeat_deadline.1 (mkSession "1.0.0" none) rfl
      [Ev.extSetAccessToken "tok0", Ev.extStart 7, Ev.esOpen 0, Ev.esMessage 0 none],
   C5_heartbeat_deadline.2.1 startedWorld (by decide),
   ⟨(C5_heartbeat_deadline.2.2.1 startedWorld ⟨0, 0⟩ (by decide) (by decide)).1,
    (C5_heartbeat_deadline.2.2.1 startedWorld ⟨0, 0⟩ (by decide) (by decide)).2 rfl⟩,
   C5_heartbeat_deadline.2.2.2.1 noAuthWorld 9 [(10000, none), (20000, none)]
      (by decide) (by decide) (by decide) (by decide)⟩

end CrownstoneSSE
